import Mathlib

/-!
Verification of the yop-cloud file service (src/app/services.py, src/app/router.py)
via a shallow embedding in Lean 4. Paths model Python pathlib.PurePosixPath
(lexical normalization; symlinks are not modelled, so Path.resolve is lexical),
the filesystem is a flat map from resolved absolute component lists to entries,
and each service operation is an executable function threading that state.
-/

namespace YopCloud

/-- Model of fastapi.HTTPException: a status code together with a detail string. -/
structure Exc where
  statusCode : Nat
  detail : String
deriving DecidableEq, Repr

/-- ASCII whitespace characters stripped by the modelled str methods. -/
def pySpaceChar (c : Char) : Bool :=
  c == ' ' || c == '\t' || c == '\n' || c == '\r' || c == '\x0b' || c == '\x0c'

/-- Model of str.strip() with no argument: drop whitespace from both ends
(ASCII fragment of the Python whitespace class). -/
def pyStrip (s : String) : String :=
  String.mk (((s.data.dropWhile pySpaceChar).reverse.dropWhile pySpaceChar).reverse)

/-- Split of a character list at a separator character, keeping empty segments,
as str.split with a one-character separator does. -/
def splitCharAux (sep : Char) : List Char → List Char → List String
  | [], cur => [String.mk cur.reverse]
  | c :: rest, cur =>
      if c == sep then String.mk cur.reverse :: splitCharAux sep rest []
      else splitCharAux sep rest (c :: cur)

/-- Model of str.split with a one-character separator. -/
def splitChar (sep : Char) (s : String) : List String :=
  splitCharAux sep s.data []

/-- Decision of whether the first list begins with the second one. -/
def listBeginsWith [DecidableEq α] : List α → List α → Bool
  | _, [] => true
  | [], _ :: _ => false
  | a :: s, b :: p => a = b && listBeginsWith s p

/-- Fuel-indexed scan returning the text after the last non-overlapping
occurrence of a pattern, or the running default when none remains. -/
def afterLastFuel (pat : List Char) : Nat → List Char → List Char → List Char
  | 0, _, best => best
  | _ + 1, [], best => best
  | n + 1, c :: rest, best =>
      if listBeginsWith (c :: rest) pat then
        afterLastFuel pat n ((c :: rest).drop pat.length) ((c :: rest).drop pat.length)
      else afterLastFuel pat n rest best

/-- Model of s.split(pat)[-1]: the text after the last occurrence of pat, or all
of s when pat does not occur. -/
def afterLast (pat s : String) : String :=
  String.mk (afterLastFuel pat.data s.data.length s.data s.data)

/-- Model of str.strip with an explicit character argument: drop that character
from both ends. -/
def pyStripChar (q : Char) (s : String) : String :=
  String.mk (((s.data.dropWhile (· == q)).reverse.dropWhile (· == q)).reverse)

/-- ASCII lower-casing of one character. -/
def asciiLower (c : Char) : Char :=
  if c.toNat ≥ 65 && c.toNat ≤ 90 then Char.ofNat (c.toNat + 32) else c

/-- Model of str.lower() on the ASCII range. -/
def pyLower (s : String) : String :=
  String.mk (s.data.map asciiLower)

/-- Concatenation of segments with a separator between consecutive ones. -/
def joinWith (sep : String) : List String → String
  | [] => ""
  | [x] => x
  | x :: y :: xs => x ++ sep ++ joinWith sep (y :: xs)

/-- Model of pathlib.PurePosixPath: an absolute flag and the list of components.
Python path parsing removes empty and "." components but keeps ".." components. -/
structure PyPath where
  absolute : Bool
  parts : List String
deriving DecidableEq, Repr

/-- Model of Path(s) for a POSIX string: split on slashes, drop empty and dot
components, record whether the string was absolute. -/
def pyPathOfString (s : String) : PyPath :=
  { absolute := match s.data with | '/' :: _ => true | _ => false
    parts := (splitChar '/' s).filter (fun c => decide (c ≠ "" ∧ c ≠ ".")) }

/-- Model of str(Path): "." for an empty relative path, otherwise the components
joined by "/" with a leading "/" when absolute. -/
def strOfPyPath (p : PyPath) : String :=
  if p.absolute then "/" ++ joinWith "/" p.parts
  else if p.parts = [] then "." else joinWith "/" p.parts

/-- Model of the / operator on paths: an absolute right operand replaces the left. -/
def pyJoin (a b : PyPath) : PyPath :=
  if b.absolute then b else { absolute := a.absolute, parts := a.parts ++ b.parts }

/-- Lexical ".." elimination: a ".." component removes the preceding component
(at the root it is dropped, as "/.." resolves to "/"). -/
def normalizeParts (ps : List String) : List String :=
  ps.foldl (fun acc c => if c = ".." then acc.dropLast else acc ++ [c]) []

/-- Model of Path.resolve on an absolute base: lexical ".." elimination.
Symlinks are not modelled; on a symlink-free filesystem this is exact. -/
def pyResolve (p : PyPath) : PyPath :=
  { absolute := true, parts := normalizeParts p.parts }

/-- Model of Path.is_relative_to: same anchoring and component-list prefix. -/
def isRelativeTo (p root : PyPath) : Bool :=
  p.absolute == root.absolute && root.parts.isPrefixOf p.parts

/-- Model of Path.name for resolved paths: the last component, "" at the root. -/
def pyName (p : PyPath) : String :=
  (p.parts.getLast?).getD ""

/-- Model of Path.parent: drop the last component. -/
def pyParent (p : PyPath) : PyPath :=
  { absolute := p.absolute, parts := p.parts.dropLast }

/-- Modelled from the spec: the Settings class imported by services.py is not
present under src (src/app/settings.py only defines module constants), so its
shape is reconstructed from the attribute reads in FileService.__init__:
STORAGE_DATA_PATH, TEMP_DATA_PATH, DISK_USAGE_OFFSET, IS_ARCHIVE_HEADER,
ARCHIVE_EXTENSION, MAX_FILE_NAME_LENGTH. -/
structure Settings where
  storageDataPath : PyPath
  tempDataPath : PyPath
  diskUsageOffset : Int
  isArchiveHeader : String
  archiveExtension : String
  maxFileNameLength : Nat
deriving Repr

/-- Modelled from the spec: representative settings values; the path and header
constants follow src/app/settings.py (UPLOAD_DIR, TMP_DIR, ARCHIVE_HEADER,
ARCHIVE_EXTENSION), the reserve margin follows the spec example of 1 GiB, and
the maximum name length is a representative positive bound. -/
def defaultSettings : Settings :=
  { storageDataPath := pyPathOfString "/storage"
    tempDataPath := pyPathOfString "/tmp/storage"
    diskUsageOffset := 1073741824
    isArchiveHeader := "X-Is-Archive"
    archiveExtension := ".tar.gz"
    maxFileNameLength := 255 }

/-- Character class of the allow-list regex [a-zA-Z0-9._\-\s] from
FileService.__init__ (ASCII fragment of the Python \s class). -/
def validNameChar (c : Char) : Bool :=
  c.isAlpha || c.isDigit || c == '.' || c == '_' || c == '-' ||
    c == ' ' || c == '\t' || c == '\n' || c == '\r' || c == '\x0b' || c == '\x0c'

/-- Model of re.match against the anchored pattern: at least one character and
every character in the class. -/
def validFileName (name : String) : Bool :=
  !name.data.isEmpty && name.data.all validNameChar

/-- Characters of the raw Python string of reserved characters in
_validate_file_path; the raw literal spells the backslash twice. -/
def reservedChars : List Char :=
  ['<', '>', ':', '"', '/', '\\', '\\', '|', '?', '*']

/-- List comprehension from _validate_file_path: the reserved characters that
occur in the name, in reserved-list order. -/
def invalidCharsOf (name : String) : List Char :=
  reservedChars.filter (fun c => name.data.contains c)

/-- Failure reasons of _validate_file_path, one per raise site, in source order. -/
inductive VReason
  | emptyPath
  | absolutePath
  | traversal
  | emptyName
  | badPattern
  | reservedChar (cs : List Char)
  | tooLong (m : Nat)
deriving DecidableEq, Repr

/-- Numeric rule index of a validation failure reason (1 through 7). -/
def VReason.tag : VReason → Nat
  | .emptyPath => 1
  | .absolutePath => 2
  | .traversal => 3
  | .emptyName => 4
  | .badPattern => 5
  | .reservedChar _ => 6
  | .tooLong _ => 7

/-- HTTPException raised for each validation failure reason; detail texts follow
the source (dynamic parts concatenated as by the f-strings). -/
def VReason.toExc : VReason → Exc
  | .emptyPath => ⟨400, "File path cannot be empty."⟩
  | .absolutePath => ⟨400, "Absolute paths are not allowed. Provide a relative file path."⟩
  | .traversal => ⟨400, "Invalid file path. Path traversal is not allowed."⟩
  | .emptyName => ⟨400, "File path must include a valid file name."⟩
  | .badPattern =>
      ⟨400, "Invalid file name. Only alphanumeric characters, underscores, hyphens, dots, and spaces are allowed."⟩
  | .reservedChar cs => ⟨400, "File name contains invalid characters: " ++ String.mk cs⟩
  | .tooLong m => ⟨400, "File name is too long. Maximum length is " ++ (toString m ++ " characters.")⟩

/-- Resolved target of a client path: (storage_data_path / file_path).resolve(). -/
def fullPathOf (st : Settings) (p : PyPath) : PyPath :=
  pyResolve (pyJoin st.storageDataPath p)

/-- Model of FileService._validate_file_path: the seven checks in source order.
The Python guard `not file_path` is always false for a Path object, so only the
blank-string test of rule 1 is live; String.trim models str.strip(). -/
def validateFilePath (st : Settings) (p : PyPath) : Except Exc PyPath :=
  if pyStrip (strOfPyPath p) = "" then .error (VReason.emptyPath.toExc)
  else if p.absolute then .error (VReason.absolutePath.toExc)
  else if !(isRelativeTo (fullPathOf st p) st.storageDataPath) then .error (VReason.traversal.toExc)
  else if pyName (fullPathOf st p) = "" then .error (VReason.emptyName.toExc)
  else if !(validFileName (pyName (fullPathOf st p))) then .error (VReason.badPattern.toExc)
  else if invalidCharsOf (pyName (fullPathOf st p)) ≠ [] then
    .error ((VReason.reservedChar (invalidCharsOf (pyName (fullPathOf st p)))).toExc)
  else if (pyName (fullPathOf st p)).length > st.maxFileNameLength then
    .error ((VReason.tooLong st.maxFileNameLength).toExc)
  else .ok (fullPathOf st p)

deriving instance DecidableEq for Except

/-- Rounding of num/den (den positive) to tenths, halves to even, as Python
float formatting with .1f does on exactly representable values; returned as the
number of tenths. -/
def tenthsHalfEven (num den : Nat) : Nat :=
  let x10 := num * 10
  let q := x10 / den
  let r := x10 % den
  if 2 * r < den then q
  else if den < 2 * r then q + 1
  else if q % 2 = 0 then q else q + 1

/-- Decimal rendering of num/den with one fractional digit, as the f-string
"size:.1f" renders the float value size. -/
def fmt1 (num den : Nat) : String :=
  let n10 := tenthsHalfEven num den
  toString (n10 / 10) ++ "." ++ toString (n10 % 10)

/-- Loop body of format_size: after k divisions by 1024 the running float value
is exactly size / 1024 ^ k (float division by 1024 is exact below 2 ^ 53), so
the comparison with 1024 is size < 1024 ^ (k + 1) on integers. -/
def formatSizeAux (size : Nat) : List String → Nat → String
  | [], k => fmt1 size (1024 ^ k) ++ " PB"
  | u :: us, k =>
      if size < 1024 ^ (k + 1) then fmt1 size (1024 ^ k) ++ " " ++ u
      else formatSizeAux size us (k + 1)

/-- Model of format_size in services.py: repeated division by 1024 over the
unit list B, KB, MB, GB, TB, falling through to PB. -/
def format_size (size : Nat) : String :=
  formatSizeAux size ["B", "KB", "MB", "GB", "TB"] 0

/-- Result of shutil.disk_usage: total, used and free byte counts. -/
structure DiskUsage where
  total : Nat
  used : Nat
  free : Nat
deriving DecidableEq, Repr

/-- Model of FileService.disk_usage: the three counters rendered by format_size. -/
def disk_usage (u : DiskUsage) : List (String × String) :=
  [("total", format_size u.total), ("used", format_size u.used), ("free", format_size u.free)]

/-- Model of FileService._check_storage_space: a probe failure is an internal
500 error; otherwise the declared size must not exceed free space minus the
reserved margin. The 507 detail renders the maximum storage size; the
subtraction is clamped at zero in the model, which only affects the text of
the detail string, not which error is raised. -/
def checkStorageSpace (requiredSize : Int) (st : Settings) (probe : Except Unit DiskUsage) :
    Except Exc Unit :=
  match probe with
  | .error _ => .error ⟨500, "Failed to check storage space"⟩
  | .ok u =>
      if requiredSize > (u.free : Int) - st.diskUsageOffset then
        .error ⟨507, "Adding this file would exceed the maximum storage limit of " ++
          format_size ((u.total : Int) - st.diskUsageOffset).toNat⟩
      else .ok ()

/-- Filesystem object kinds distinguished by the service: regular files with
their byte content, directories, and any other object type. -/
inductive Entry
  | file (content : List Nat)
  | dir
  | other
deriving DecidableEq, Repr

/-- Flat filesystem model: resolved absolute paths (component lists) mapped to
entries; earlier bindings shadow later ones. -/
abbrev Fs := List (List String × Entry)

/-- Lookup of a path in the filesystem model. -/
def fsGet : Fs → List String → Option Entry
  | [], _ => none
  | e :: rest, key => if e.1 = key then some e.2 else fsGet rest key

/-- Removal of a single path from the filesystem model. -/
def fsDel : Fs → List String → Fs
  | [], _ => []
  | e :: rest, key => if e.1 = key then fsDel rest key else e :: fsDel rest key

/-- Insertion or overwrite of a path in the filesystem model. -/
def fsSet (fs : Fs) (key : List String) (v : Entry) : Fs :=
  (key, v) :: fsDel fs key

/-- Removal of a whole subtree, as shutil.rmtree does for a directory. -/
def fsDelTree : Fs → List String → Fs
  | [], _ => []
  | e :: rest, key => if key.isPrefixOf e.1 then fsDelTree rest key else e :: fsDelTree rest key

/-- Test for an entry lying strictly below a directory key. -/
def strictlyUnder (dirKey key : List String) : Bool :=
  dirKey.isPrefixOf key && decide (key ≠ dirKey)

/-- Deferred work scheduled with BackgroundTasks by the service. -/
inductive BgTask
  | unzipAt (p : PyPath)
  | deleteAt (p : PyPath)
deriving DecidableEq, Repr

/-- Shared mutable state threaded through the operations: the filesystem, the
set of path strings whose upload lock is currently held by an in-flight
transaction, and the outcome the next disk-usage probe will have. -/
structure SysState where
  fs : Fs
  lockHolders : List String
  disk : Except Unit DiskUsage
deriving DecidableEq

/-- Model of FileService._get_paths: resolve root/path, and for archive uploads
descend to the dot-prefixed archive member; returns the file path, its parent
directory and its final name. -/
def getPaths (st : Settings) (rootDir : PyPath) (p : PyPath) (isArchive : Bool) :
    PyPath × PyPath × String :=
  let filePath := pyResolve (pyJoin rootDir p)
  let filePath :=
    if isArchive then pyJoin filePath (pyPathOfString ("." ++ pyName filePath ++ st.archiveExtension))
    else filePath
  (filePath, pyParent filePath, pyName filePath)

/-- Request stream outcomes: either all chunks arrive, or an exception
interrupts the transfer after some chunks were written. -/
inductive StreamBehavior
  | ok (chunks : List (List Nat))
  | failMid (written : List (List Nat))
deriving DecidableEq, Repr

/-- The parts of the incoming HTTP request that save_file reads: header values
and the body stream. isArchiveValue is the value of the configured archive
header, if sent. -/
structure UploadRequest where
  contentDisposition : Option String
  isArchiveValue : Option String
  xFileSize : Option String
  xExpect : Option String
  stream : StreamBehavior
deriving DecidableEq, Repr

/-- Model of int(s) for the X-File-Size header: optional surrounding
whitespace, an optional sign, then at least one digit. -/
def pyInt? (s : String) : Option Int :=
  let t := (pyStrip s).data
  let core : Option (Bool × List Char) :=
    match t with
    | '-' :: rest => some (true, rest)
    | '+' :: rest => some (false, rest)
    | rest => some (false, rest)
  match core with
  | some (neg, ds) =>
      if ds.isEmpty || !ds.all Char.isDigit then none
      else
        let n := ds.foldl (fun (acc : Nat) c => acc * 10 + (c.toNat - 48)) 0
        some (if neg then -(n : Int) else (n : Int))
  | none => none

/-- Target path parsed from the Content-Disposition header, as save_file does:
the text after the last "filename=", with surrounding double quotes stripped. -/
def parsedSavePath (cd : String) : PyPath :=
  pyPathOfString (pyStripChar '"' (afterLast "filename=" cd))

/-- Result of one save_file call: the returned name or error, the state after
the call, and the deferred tasks scheduled during it. -/
structure SaveOutcome where
  result : Except Exc String
  state : SysState
  tasks : List BgTask
deriving DecidableEq

/-- Model of FileService.save_file, step for step in source order: header and
path checks, the conflict check, the size and capacity checks, creation of the
staging directory, the non-blocking lock check, the 100-continue short
circuit, the staged streamed write with cleanup on mid-stream failure, the
rename into the storage tree with removal of the now-empty staging directory,
and the scheduling of deferred archive expansion. The asyncio lock is held for
the whole transaction, so the lock set of the state is unchanged on return;
another in-flight holder is visible as membership in lockHolders. -/
def save_file (st : Settings) (req : UploadRequest) (force : Bool) (s : SysState) : SaveOutcome :=
  let cd := req.contentDisposition.getD ""
  if cd = "" then ⟨.error ⟨400, "No Content-Disposition header"⟩, s, []⟩
  else
    let savePath := parsedSavePath cd
    match validateFilePath st savePath with
    | .error e => ⟨.error e, s, []⟩
    | .ok _ =>
      let isArchive := pyLower (req.isArchiveValue.getD "false") = "true"
      let (filePath, dirPath, _) := getPaths st st.storageDataPath savePath isArchive
      if (fsGet s.fs (fullPathOf st savePath).parts).isSome && !force then
        ⟨.error ⟨409, "File already exists. If you want to overwrite it, use the force parameter."⟩, s, []⟩
      else
        match req.xFileSize with
        | none => ⟨.error ⟨411, "X-File-Size header is required"⟩, s, []⟩
        | some sizeStr =>
          match pyInt? sizeStr with
          | none => ⟨.error ⟨400, "Invalid X-File-Size header"⟩, s, []⟩
          | some fileSize =>
            match checkStorageSpace fileSize st s.disk with
            | .error e => ⟨.error e, s, []⟩
            | .ok _ =>
              let (tempFilePath, tempDirPath, tempFileName) := getPaths st st.tempDataPath savePath isArchive
              let s1 : SysState :=
                if (fsGet s.fs tempDirPath.parts).isNone then
                  { s with fs := fsSet s.fs tempDirPath.parts .dir }
                else s
              if s1.lockHolders.contains (strOfPyPath savePath) then
                ⟨.error ⟨423, "File is currently being uploaded by another user. Please try again later."⟩, s1, []⟩
              else if pyLower (req.xExpect.getD "") = "100-continue" then
                ⟨.ok "", s1, []⟩
              else
                match req.stream with
                | .failMid written =>
                  let fs2 := fsSet s1.fs tempFilePath.parts (.file written.flatten)
                  let fs3 := fsDel fs2 tempFilePath.parts
                  ⟨.error ⟨500, "Error writing file to the disk"⟩, { s1 with fs := fs3 }, []⟩
                | .ok chunks =>
                  let fs2 := fsSet s1.fs tempFilePath.parts (.file chunks.flatten)
                  let fs3 :=
                    if (fsGet fs2 dirPath.parts).isNone then fsSet fs2 dirPath.parts .dir else fs2
                  if fsGet fs3 filePath.parts = some Entry.dir then
                    ⟨.error ⟨500, "Error moving and cleaning temp file"⟩, { s1 with fs := fs3 }, []⟩
                  else
                    let fs4 := fsDel (fsSet fs3 filePath.parts (.file chunks.flatten)) tempFilePath.parts
                    if fs4.any (fun e => strictlyUnder tempDirPath.parts e.1) then
                      ⟨.error ⟨500, "Error moving and cleaning temp file"⟩, { s1 with fs := fs4 }, []⟩
                    else
                      ⟨.ok tempFileName, { s1 with fs := fsDel fs4 tempDirPath.parts },
                        if isArchive then [BgTask.unzipAt filePath] else []⟩

/-- Transient archive path built by FileService._archive_file: the directory
name, an underscore, the (process-salted, hence parametric) Python hash of the
path, and the .tar.gz suffix, under the temporary data root. -/
def tempArchivePathOf (st : Settings) (filePath : PyPath) (pathHash : Int) : PyPath :=
  pyJoin st.tempDataPath (pyPathOfString (pyName filePath ++ "_" ++ toString pathHash ++ ".tar.gz"))

/-- Shell command built by _archive_file; the -C switch makes entries relative
to the archived directory and the no-xattrs switch drops extended attributes. -/
def zipCommand (archivePath dirPath : String) : String :=
  "tar -cz -" ++ "-no-xattrs -f " ++ archivePath ++ " -C " ++ dirPath ++ " ."

/-- Model of FileService._archive_file: on subprocess failure, a 500 error;
otherwise the transient archive file appears at its temp-area path. -/
def archiveFile (st : Settings) (filePath : PyPath) (pathHash : Int)
    (tarExit : Except String (List Nat)) (s : SysState) : Except Exc PyPath × SysState :=
  let tempArchivePath := tempArchivePathOf st filePath pathHash
  match tarExit with
  | .error _ => (.error ⟨500, "Archiving failed"⟩, s)
  | .ok bytes => (.ok tempArchivePath, { s with fs := fsSet s.fs tempArchivePath.parts (.file bytes) })

/-- Result of one download_file call: the path streamed in the response or the
error, the state after the call, and the deferred tasks scheduled. -/
structure DownloadOutcome where
  result : Except Exc String
  state : SysState
  tasks : List BgTask
deriving DecidableEq

/-- Model of FileService.download_file: validation, existence check, and for
directories the transient archive plus a deferred deletion task for it.
pathHash stands for the process-salted Python hash used in the archive name,
and tarExit for the external archiver outcome. -/
def download_file (st : Settings) (rawPath : String) (pathHash : Int)
    (tarExit : Except String (List Nat)) (s : SysState) : DownloadOutcome :=
  let downloadPath := pyPathOfString rawPath
  match validateFilePath st downloadPath with
  | .error e => ⟨.error e, s, []⟩
  | .ok _ =>
    let filePath := fullPathOf st downloadPath
    match fsGet s.fs filePath.parts with
    | none => ⟨.error ⟨404, "File not found: " ++ strOfPyPath downloadPath⟩, s, []⟩
    | some .dir =>
      match archiveFile st filePath pathHash tarExit s with
      | (.error e, s2) => ⟨.error e, s2, []⟩
      | (.ok archivePath, s2) => ⟨.ok (strOfPyPath archivePath), s2, [BgTask.deleteAt archivePath]⟩
    | some _ => ⟨.ok (strOfPyPath filePath), s, []⟩

/-- Model of FileService._delete_file, the body of the deferred deletion task:
validation, existence check, then single removal for a file, recursive removal
for a directory, and a logged no-op for any other object kind. -/
def deleteFileTask (st : Settings) (p : PyPath) (s : SysState) : Except Exc Unit × SysState :=
  match validateFilePath st p with
  | .error e => (.error e, s)
  | .ok _ =>
    let filePath := fullPathOf st p
    match fsGet s.fs filePath.parts with
    | none => (.error ⟨404, "File not found: " ++ strOfPyPath p⟩, s)
    | some (.file _) => (.ok (), { s with fs := fsDel s.fs filePath.parts })
    | some .dir => (.ok (), { s with fs := fsDelTree s.fs filePath.parts })
    | some .other => (.ok (), s)

/-- Model of the DELETE route handler together with FileService.delete_file:
the deletion runs as a deferred task and the response is an immediate 204. -/
def routerDeleteFile (rawPath : String) : Nat × List BgTask :=
  (204, [BgTask.deleteAt (pyPathOfString rawPath)])

/-- Response entry model of app.models.File: pydantic optional fields default
to none. -/
structure FileRec where
  name : String
  type? : Option String := none
  size? : Option Nat := none
  sizeHuman? : Option String := none
deriving DecidableEq, Repr

/-- Size reported by os.path.getsize: the byte count for regular files; for
other object kinds the on-disk stat size is filesystem-dependent and modelled
as zero (no claim depends on it). -/
def entrySize : Entry → Nat
  | .file content => content.length
  | .dir => 0
  | .other => 0

/-- Model of FileService._get_file_info: only the name unless verbose, in which
case the type (folder for directories, file otherwise), the size, and the
human-readable size are filled in. -/
def getFileInfo (name : String) (e : Entry) (verbose : Bool) : FileRec :=
  if verbose then
    { name := name
      type? := some (match e with | .dir => "folder" | _ => "file")
      size? := some (entrySize e)
      sizeHuman? := some (format_size (entrySize e)) }
  else { name := name }

/-- Children of a directory key produced by path.glob applied to the star
pattern: the entries exactly one component below it, in filesystem order. -/
def childEntries (fs : Fs) (dirKey : List String) : List (List String × Entry) :=
  fs.filter (fun e => decide (e.1.length = dirKey.length + 1) && dirKey.isPrefixOf e.1)

/-- Model of FileService.list_files: validation, existence check, then one
info record per directory child, or a single record for a non-directory. -/
def list_files (st : Settings) (rawPath : String) (verbose : Bool) (s : SysState) :
    Except Exc (List FileRec) :=
  let listPath := pyPathOfString rawPath
  match validateFilePath st listPath with
  | .error e => .error e
  | .ok _ =>
    let path := fullPathOf st listPath
    match fsGet s.fs path.parts with
    | none => .error ⟨404, "File not found: " ++ strOfPyPath listPath⟩
    | some .dir =>
        .ok ((childEntries s.fs path.parts).map
          (fun e => getFileInfo ((e.1.getLast?).getD "") e.2 verbose))
    | some e => .ok [getFileInfo (pyName path) e verbose]

/-- Events on one path's upload lock: the non-blocking check-then-acquire step
at the head of the locked region of save_file, and the release when the
transaction finishes. -/
inductive LockEvent
  | tryAcquire (tx : Nat)
  | release (tx : Nat)
deriving DecidableEq, Repr

/-- Transition of the holder set of one path's lock: an acquire attempt while
any transaction holds the lock changes nothing (the request is rejected with
the 423 error), otherwise the transaction becomes the sole holder; a release
removes the transaction. The check and the acquisition run with no suspension
point between them on the event loop, so they form one transition. -/
def lockStep (holders : List Nat) : LockEvent → List Nat
  | .tryAcquire tx => if holders.isEmpty then [tx] else holders
  | .release tx => holders.erase tx

/-- Holder set reached from the free lock after a sequence of events. -/
def lockRun (events : List LockEvent) : List Nat :=
  events.foldl lockStep []

/-! Helper lemmas. -/

/-- Strings whose first eleven characters differ stay different under any
suffixes. -/
lemma append_ne_append_of_take11 (p s q t : String) (hp : 11 ≤ p.data.length)
    (hq : 11 ≤ q.data.length) (h : p.data.take 11 ≠ q.data.take 11) :
    p ++ s ≠ q ++ t := by
  intro e
  apply h
  have h2 : (p ++ s).data.take 11 = (q ++ t).data.take 11 := by rw [e]
  rwa [String.data_append, String.data_append, List.take_append_of_le_length hp,
    List.take_append_of_le_length hq] at h2

/-- A string with a suffix differs from a fixed string whose first eleven
characters differ from those of the prefix. -/
lemma append_ne_of_take11 (p s q : String) (hp : 11 ≤ p.data.length)
    (h : p.data.take 11 ≠ q.data.take 11) : p ++ s ≠ q := by
  intro e
  apply h
  have h2 : (p ++ s).data.take 11 = q.data.take 11 := by rw [e]
  rwa [String.data_append, List.take_append_of_le_length hp] at h2

/-- Symmetric form of append_ne_of_take11. -/
lemma ne_append_of_take11 (q p s : String) (hp : 11 ≤ p.data.length)
    (h : p.data.take 11 ≠ q.data.take 11) : q ≠ p ++ s :=
  (append_ne_of_take11 p s q hp h).symm

/-- Validation failure reasons with different rule indices carry different
detail texts, also for the two reasons whose details embed dynamic data. -/
lemma vreason_detail_injective :
    ∀ v w : VReason, v.tag ≠ w.tag → v.toExc.detail ≠ w.toExc.detail := by
  intro v w htag
  cases v <;> cases w <;>
    simp only [VReason.tag] at htag <;>
    simp only [VReason.toExc] <;>
    first
      | exact absurd rfl htag
      | decide
      | (apply append_ne_of_take11 <;> decide)
      | (apply ne_append_of_take11 <;> decide)
      | (apply append_ne_append_of_take11 <;> decide)

/-- Every character of the allow-list class is outside the reserved set. -/
lemma validNameChar_not_reserved {c : Char} (h : validNameChar c = true) :
    c ∉ reservedChars := by
  intro hc
  simp only [reservedChars, List.mem_cons, List.not_mem_nil, or_false] at hc
  rcases hc with h' | h' | h' | h' | h' | h' | h' | h' | h' | h' <;> subst h' <;>
    exact absurd h (by decide)

/-- A name all of whose characters pass the allow-list yields an empty
invalid-character list in rule 6. -/
lemma invalidCharsOf_eq_nil {name : String} (h : name.data.all validNameChar = true) :
    invalidCharsOf name = [] := by
  rw [invalidCharsOf, List.filter_eq_nil_iff]
  intro c hc hmem
  have hcontains : c ∈ name.data := by
    simpa [List.elem_iff] using hmem
  exact validNameChar_not_reserved (List.all_eq_true.mp h c hcontains) hc

/-- The errors _validate_file_path can actually produce: every failure reason
except the reserved-character one, whose guard is contradicted by the
allow-list check that precedes it. -/
lemma validate_error_cases {st : Settings} {p : PyPath} {e : Exc}
    (h : validateFilePath st p = .error e) :
    e = VReason.emptyPath.toExc ∨ e = VReason.absolutePath.toExc ∨
    e = VReason.traversal.toExc ∨ e = VReason.emptyName.toExc ∨
    e = VReason.badPattern.toExc ∨ e = (VReason.tooLong st.maxFileNameLength).toExc := by
  unfold validateFilePath at h
  split_ifs at h with h1 h2 h3 h4 h5 h6 h7
  · exact Or.inl (Except.error.inj h).symm
  · exact Or.inr (Or.inl (Except.error.inj h).symm)
  · exact Or.inr (Or.inr (Or.inl (Except.error.inj h).symm))
  · exact Or.inr (Or.inr (Or.inr (Or.inl (Except.error.inj h).symm)))
  · exact Or.inr (Or.inr (Or.inr (Or.inr (Or.inl (Except.error.inj h).symm))))
  · exfalso
    simp only [Bool.not_eq_true', Bool.not_eq_false] at h5
    unfold validFileName at h5
    simp only [Bool.and_eq_true] at h5
    exact h6 (invalidCharsOf_eq_nil h5.2)
  · exact Or.inr (Or.inr (Or.inr (Or.inr (Or.inr (Except.error.inj h).symm))))

/-! Claim C10. -/

/-- C10: every file name matching the allow-list pattern contains no reserved
character, so the reserved-character branch (rule 6) of path validation never
fires for a name that already passed the allow-list check (rule 5): its
invalid-character list is empty, and no validation error is ever the
reserved-character error. -/
theorem c10_reserved_branch_unreachable :
    (∀ c : Char, validNameChar c = true → c ∉ reservedChars)
  ∧ (∀ name : String, name.data.all validNameChar = true → invalidCharsOf name = [])
  ∧ (∀ st p e, validateFilePath st p = .error e →
      ∀ cs : List Char, e ≠ (VReason.reservedChar cs).toExc) := by
  refine ⟨fun c h => validNameChar_not_reserved h, fun name h => invalidCharsOf_eq_nil h, ?_⟩
  intro st p e hval cs
  have hne : ∀ v : VReason, v.tag ≠ 6 → e = v.toExc → e ≠ (VReason.reservedChar cs).toExc :=
    fun v hv he => he ▸ fun hc =>
      vreason_detail_injective v (VReason.reservedChar cs) (by simpa [VReason.tag] using hv)
        (congrArg Exc.detail hc)
  rcases validate_error_cases hval with h | h | h | h | h | h
  · exact hne VReason.emptyPath (by decide) h
  · exact hne VReason.absolutePath (by decide) h
  · exact hne VReason.traversal (by decide) h
  · exact hne VReason.emptyName (by decide) h
  · exact hne VReason.badPattern (by decide) h
  · exact hne (VReason.tooLong st.maxFileNameLength) (by simp [VReason.tag]) h

/-- Witness for C10 at a concrete name and path. -/
theorem c10_reserved_branch_unreachable_witness :
    invalidCharsOf "todo.txt" = [] :=
  c10_reserved_branch_unreachable.2.1 "todo.txt" (by decide)

/-! Claim C1. -/

/-- C1 counterexample: the claim that validation fails for all paths
containing ".." segments or characters outside the allow-list is false on the
code: "a/../b" contains a ".." segment yet validates, because its resolution
stays inside the storage root, and "ok!dir/name.txt" contains a character
outside the allow-list in a non-final component yet validates, because the
pattern is checked against the final name only. -/
theorem c1_counterexample :
    (validateFilePath defaultSettings (pyPathOfString "a/../b")).isOk = true ∧
    (validateFilePath defaultSettings (pyPathOfString "ok!dir/name.txt")).isOk = true := by
  decide

/-- C1 amended: validation applies the seven rules in source order with
pairwise-distinct failure details, always failing with status 400; an absolute
input is rejected once the blank check passes, a resolution escaping the
storage root is rejected once the first two checks pass, and a final name
failing the allow-list is rejected once the first four checks pass; a
successful validation guarantees the resolved path is a descendant of the root
with a pattern-clean, reserved-free, length-bounded final name; a validation
failure inside save_file leaves the state unchanged and schedules nothing.
The rejection of ".."-segments and bad characters is only as strong as this:
".." segments resolving inside the root and bad characters in non-final
components are accepted. -/
theorem c1_validation_rules :
    (∀ v w : VReason, v.tag ≠ w.tag → v.toExc.detail ≠ w.toExc.detail)
  ∧ (∀ st p e, validateFilePath st p = .error e → e.statusCode = 400)
  ∧ (∀ st p, pyStrip (strOfPyPath p) ≠ "" → p.absolute = true →
      validateFilePath st p = .error VReason.absolutePath.toExc)
  ∧ (∀ st p, pyStrip (strOfPyPath p) ≠ "" → p.absolute = false →
      isRelativeTo (fullPathOf st p) st.storageDataPath = false →
      validateFilePath st p = .error VReason.traversal.toExc)
  ∧ (∀ st p, pyStrip (strOfPyPath p) ≠ "" → p.absolute = false →
      isRelativeTo (fullPathOf st p) st.storageDataPath = true →
      pyName (fullPathOf st p) ≠ "" → validFileName (pyName (fullPathOf st p)) = false →
      validateFilePath st p = .error VReason.badPattern.toExc)
  ∧ (∀ st p fp, validateFilePath st p = .ok fp →
      fp = fullPathOf st p ∧ p.absolute = false ∧
      isRelativeTo fp st.storageDataPath = true ∧
      validFileName (pyName fp) = true ∧ invalidCharsOf (pyName fp) = [] ∧
      (pyName fp).length ≤ st.maxFileNameLength)
  ∧ (∀ st req force s cd e, req.contentDisposition = some cd → cd ≠ "" →
      validateFilePath st (parsedSavePath cd) = .error e →
      save_file st req force s = ⟨.error e, s, []⟩) := by
  refine ⟨vreason_detail_injective, ?_, ?_, ?_, ?_, ?_, ?_⟩
  · intro st p e h
    rcases validate_error_cases h with h' | h' | h' | h' | h' | h' <;> subst h' <;> rfl
  · intro st p h1 h2
    simp [validateFilePath, h1, h2]
  · intro st p h1 h2 h3
    simp [validateFilePath, h1, h2, h3]
  · intro st p h1 h2 h3 h4 h5
    simp [validateFilePath, h1, h2, h3, h4, h5]
  · intro st p fp h
    unfold validateFilePath at h
    split_ifs at h with h1 h2 h3 h4 h5 h6 h7
    have hfp : fp = fullPathOf st p := (Except.ok.inj h).symm
    subst hfp
    simp only [Bool.not_eq_true', Bool.not_eq_false] at h3 h5
    refine ⟨rfl, Bool.not_eq_true _ ▸ eq_false_of_ne_true h2, h3, h5, ?_, by omega⟩
    · simp only [ne_eq, Decidable.not_not] at h6
      exact h6
  · intro st req force s cd e hcd hne herr
    unfold save_file
    rw [hcd]
    simp only [Option.getD_some, if_neg hne, parsedSavePath] at herr ⊢
    rw [herr]

/-- Witness for C1 amended at a concrete absolute path. -/
theorem c1_validation_rules_witness :
    validateFilePath defaultSettings (pyPathOfString "/etc/x") =
      .error VReason.absolutePath.toExc :=
  c1_validation_rules.2.2.1 defaultSettings (pyPathOfString "/etc/x") (by decide) (by decide)

/-! Lemmas about the filesystem map. -/

/-- Lookup after deleting the same key. -/
lemma fsGet_fsDel_self (fs : Fs) (k : List String) : fsGet (fsDel fs k) k = none := by
  induction fs with
  | nil => rfl
  | cons e rest ih =>
    by_cases h : e.1 = k
    · simp [fsDel, h, ih]
    · simp [fsDel, h, fsGet, ih]

/-- Lookup after deleting a different key. -/
lemma fsGet_fsDel_ne (fs : Fs) {k k' : List String} (h : k' ≠ k) :
    fsGet (fsDel fs k) k' = fsGet fs k' := by
  induction fs with
  | nil => rfl
  | cons e rest ih =>
    by_cases he : e.1 = k
    · have hk : k ≠ k' := fun hk => h hk.symm
      simp [fsDel, he, fsGet, hk, ih]
    · simp only [fsDel, if_neg he, fsGet, ih]

/-- Lookup of the key just written. -/
lemma fsGet_fsSet_self (fs : Fs) (k : List String) (v : Entry) :
    fsGet (fsSet fs k v) k = some v := by
  simp [fsSet, fsGet]

/-- Lookup of a different key after a write. -/
lemma fsGet_fsSet_ne (fs : Fs) (v : Entry) {k k' : List String} (h : k' ≠ k) :
    fsGet (fsSet fs k v) k' = fsGet fs k' := by
  simp only [fsSet, fsGet, if_neg (fun he : k = k' => h he.symm)]
  exact fsGet_fsDel_ne fs h

/-- Membership after a deletion. -/
lemma mem_fsDel {fs : Fs} {k : List String} {e : List String × Entry} :
    e ∈ fsDel fs k ↔ e ∈ fs ∧ e.1 ≠ k := by
  induction fs with
  | nil => simp [fsDel]
  | cons a rest ih =>
    by_cases ha : a.1 = k
    · simp only [fsDel, if_pos ha, List.mem_cons, ih]
      constructor
      · exact fun ⟨h1, h2⟩ => ⟨Or.inr h1, h2⟩
      · rintro ⟨h1 | h1, h2⟩
        · exact absurd (h1 ▸ ha) h2
        · exact ⟨h1, h2⟩
    · simp only [fsDel, if_neg ha, List.mem_cons, ih]
      constructor
      · rintro (h1 | ⟨h1, h2⟩)
        · exact ⟨Or.inl h1, h1 ▸ ha⟩
        · exact ⟨Or.inr h1, h2⟩
      · rintro ⟨h1 | h1, h2⟩
        · exact Or.inl h1
        · exact Or.inr ⟨h1, h2⟩

/-- Membership after a write. -/
lemma mem_fsSet {fs : Fs} {k : List String} {v : Entry} {e : List String × Entry} :
    e ∈ fsSet fs k v ↔ e = (k, v) ∨ (e ∈ fs ∧ e.1 ≠ k) := by
  simp [fsSet, mem_fsDel]

/-- Lookup below a recursively removed directory. -/
lemma fsGet_fsDelTree_under {fs : Fs} {k k' : List String} (h : k.isPrefixOf k' = true) :
    fsGet (fsDelTree fs k) k' = none := by
  induction fs with
  | nil => rfl
  | cons e rest ih =>
    by_cases he : k.isPrefixOf e.1
    · simp [fsDelTree, he, ih]
    · have hne : e.1 ≠ k' := fun hk => he (hk ▸ h)
      simp [fsDelTree, he, fsGet, hne, ih]

/-- Lookup outside a recursively removed directory. -/
lemma fsGet_fsDelTree_not_under {fs : Fs} {k k' : List String}
    (h : ¬ k.isPrefixOf k' = true) : fsGet (fsDelTree fs k) k' = fsGet fs k' := by
  induction fs with
  | nil => rfl
  | cons e rest ih =>
    by_cases he : k.isPrefixOf e.1
    · have hne : e.1 ≠ k' := fun hk => h (hk ▸ he)
      simp [fsDelTree, he, fsGet, hne, ih]
    · simp only [fsDelTree, if_neg he, fsGet, ih]

/-! Claim C4. -/

/-- C4: with a successful probe, the capacity check fails exactly when the
declared size exceeds free space minus the reserved margin, and then with
status 507; an I/O error probing disk usage surfaces as a 500 internal error,
distinguishable from 507; and a failed capacity check inside save_file
performs no write: the state is returned unchanged and no task is scheduled. -/
theorem c4_capacity_check :
    (∀ required st u e, checkStorageSpace required st (.ok u) = .error e →
      e.statusCode = 507 ∧ required > (u.free : Int) - st.diskUsageOffset)
  ∧ (∀ required st u, required ≤ (u.free : Int) - st.diskUsageOffset →
      checkStorageSpace required st (.ok u) = .ok ())
  ∧ (∀ required st, checkStorageSpace required st (.error ()) =
      .error ⟨500, "Failed to check storage space"⟩)
  ∧ (∀ st req force s cd fp szs n e, req.contentDisposition = some cd → cd ≠ "" →
      validateFilePath st (parsedSavePath cd) = .ok fp →
      (force = true ∨ fsGet s.fs (fullPathOf st (parsedSavePath cd)).parts = none) →
      req.xFileSize = some szs → pyInt? szs = some n →
      checkStorageSpace n st s.disk = .error e →
      save_file st req force s = ⟨.error e, s, []⟩) := by
  refine ⟨?_, ?_, ?_, ?_⟩
  · intro required st u e h
    simp only [checkStorageSpace] at h
    split_ifs at h with hgt
    exact ⟨(Except.error.inj h) ▸ rfl, hgt⟩
  · intro required st u h
    simp only [checkStorageSpace]
    rw [if_neg (by omega)]
  · intro required st
    rfl
  · intro st req force s cd fp szs n e hcd hne hval hconf hsz hparse hcap
    unfold save_file
    rw [hcd]
    simp only [Option.getD_some, if_neg hne]
    rw [hval]
    simp only
    have hgate : ((fsGet s.fs (fullPathOf st (parsedSavePath cd)).parts).isSome && !force) = false := by
      rcases hconf with h | h
      · simp [h]
      · simp [h]
    rw [if_neg (by simp [hgate])]
    simp only [hsz, hparse, hcap]

/-- Witness for C4 at concrete sizes and settings. -/
theorem c4_capacity_check_witness :
    checkStorageSpace 41 defaultSettings
        (.ok { total := 2000000000, used := 0, free := 1073741865 }) = .ok () :=
  c4_capacity_check.2.1 41 defaultSettings
    { total := 2000000000, used := 0, free := 1073741865 } (by decide)

/-! Claim C9. -/

/-- C9 counterexample: format_size renders 512 bytes with unit "B", not
"bytes", and renders a tebibyte with unit "TB"; neither unit belongs to the
claimed sequence bytes, KB, MB, GB, so the claimed unit sequence is wrong. -/
theorem c9_counterexample :
    format_size 512 = "512.0 B" ∧ format_size 1099511627776 = "1.0 TB" := by
  decide

/-- C9 amended: disk usage reports the three counters as strings rendered by
format_size, and format_size renders the value scaled by repeated binary
1024-based steps over the unit sequence B, KB, MB, GB, TB, PB (one decimal
digit, like the Python .1f format of the exact scaled value). -/
theorem c9_disk_usage_format :
    (∀ u : DiskUsage, disk_usage u =
      [("total", format_size u.total), ("used", format_size u.used), ("free", format_size u.free)])
  ∧ (∀ n, n < 1024 → format_size n = fmt1 n 1 ++ " B")
  ∧ (∀ n, 1024 ≤ n → n < 1048576 → format_size n = fmt1 n 1024 ++ " KB")
  ∧ (∀ n, 1048576 ≤ n → n < 1073741824 → format_size n = fmt1 n 1048576 ++ " MB")
  ∧ (∀ n, 1073741824 ≤ n → n < 1099511627776 → format_size n = fmt1 n 1073741824 ++ " GB")
  ∧ (∀ n, 1099511627776 ≤ n → n < 1125899906842624 → format_size n = fmt1 n 1099511627776 ++ " TB")
  ∧ (∀ n, 1125899906842624 ≤ n → format_size n = fmt1 n 1125899906842624 ++ " PB") := by
  refine ⟨fun u => rfl, ?_, ?_, ?_, ?_, ?_, ?_⟩
  · intro n h
    simp only [format_size, formatSizeAux]
    norm_num
    rw [if_pos h, String.append_assoc]
    rfl
  · intro n h1 h2
    simp only [format_size, formatSizeAux]
    norm_num
    rw [if_neg (by omega), if_pos h2, String.append_assoc]
    rfl
  · intro n h1 h2
    simp only [format_size, formatSizeAux]
    norm_num
    rw [if_neg (by omega), if_neg (by omega), if_pos h2, String.append_assoc]
    rfl
  · intro n h1 h2
    simp only [format_size, formatSizeAux]
    norm_num
    rw [if_neg (by omega), if_neg (by omega), if_neg (by omega), if_pos h2, String.append_assoc]
    rfl
  · intro n h1 h2
    simp only [format_size, formatSizeAux]
    norm_num
    rw [if_neg (by omega), if_neg (by omega), if_neg (by omega), if_neg (by omega), if_pos h2,
      String.append_assoc]
    rfl
  · intro n h1
    simp only [format_size, formatSizeAux]
    norm_num
    rw [if_neg (by omega), if_neg (by omega), if_neg (by omega), if_neg (by omega),
      if_neg (by omega)]

/-- Witness for C9 amended in the KB range. -/
theorem c9_disk_usage_format_witness : format_size 1536 = fmt1 1536 1024 ++ " KB" :=
  c9_disk_usage_format.2.2.1 1536 (by decide) (by decide)

/-! Claim C7. -/

/-- C7: the delete route responds 204 immediately and defers the deletion as a
background task; the deferred deletion, after validation, fails with 404 when
the target is absent (leaving the state unchanged), removes exactly the target
key for a regular file, removes exactly the subtree for a directory, and
leaves the filesystem untouched for any other object kind. -/
theorem c7_delete_behavior :
    (∀ rawPath, routerDeleteFile rawPath = (204, [BgTask.deleteAt (pyPathOfString rawPath)]))
  ∧ (∀ st p s fp, validateFilePath st p = .ok fp →
      fsGet s.fs (fullPathOf st p).parts = none →
      deleteFileTask st p s =
        (.error ⟨404, "File not found: " ++ strOfPyPath p⟩, s))
  ∧ (∀ st p s fp c, validateFilePath st p = .ok fp →
      fsGet s.fs (fullPathOf st p).parts = some (.file c) →
      (deleteFileTask st p s).1 = .ok () ∧
      fsGet (deleteFileTask st p s).2.fs (fullPathOf st p).parts = none ∧
      (∀ k, k ≠ (fullPathOf st p).parts →
        fsGet (deleteFileTask st p s).2.fs k = fsGet s.fs k))
  ∧ (∀ st p s fp, validateFilePath st p = .ok fp →
      fsGet s.fs (fullPathOf st p).parts = some .dir →
      (deleteFileTask st p s).1 = .ok () ∧
      (∀ k, (fullPathOf st p).parts.isPrefixOf k = true →
        fsGet (deleteFileTask st p s).2.fs k = none) ∧
      (∀ k, ¬ (fullPathOf st p).parts.isPrefixOf k = true →
        fsGet (deleteFileTask st p s).2.fs k = fsGet s.fs k))
  ∧ (∀ st p s fp, validateFilePath st p = .ok fp →
      fsGet s.fs (fullPathOf st p).parts = some .other →
      deleteFileTask st p s = (.ok (), s)) := by
  refine ⟨fun rawPath => rfl, ?_, ?_, ?_, ?_⟩
  · intro st p s fp hval habs
    simp only [deleteFileTask, hval, habs]
  · intro st p s fp c hval hfile
    simp only [deleteFileTask, hval, hfile]
    exact ⟨trivial, fsGet_fsDel_self s.fs _, fun k hk => fsGet_fsDel_ne s.fs hk⟩
  · intro st p s fp hval hdir
    simp only [deleteFileTask, hval, hdir]
    exact ⟨trivial, fun k hk => fsGet_fsDelTree_under hk, fun k hk => fsGet_fsDelTree_not_under hk⟩
  · intro st p s fp hval hother
    simp only [deleteFileTask, hval, hother]

/-- Witness for C7 at a concrete absent path. -/
theorem c7_delete_behavior_witness :
    deleteFileTask defaultSettings (pyPathOfString "gone.txt")
        { fs := [], lockHolders := [], disk := .error () } =
      (.error ⟨404, "File not found: " ++ strOfPyPath (pyPathOfString "gone.txt")⟩,
        { fs := [], lockHolders := [], disk := .error () }) :=
  c7_delete_behavior.2.1 defaultSettings (pyPathOfString "gone.txt")
    { fs := [], lockHolders := [], disk := .error () }
    (fullPathOf defaultSettings (pyPathOfString "gone.txt")) (by decide) (by decide)

/-! Claim C8. -/

/-- C8 counterexample: after uploading notes/todo.txt (10 bytes, no archive
flag), listing "notes" with the default verbose=false returns one entry whose
type field is not populated at all, not the claimed entry with type "file". -/
theorem c8_counterexample :
    list_files defaultSettings "notes" false
        (save_file defaultSettings
          { contentDisposition := some "attachment; filename=notes/todo.txt"
            isArchiveValue := none
            xFileSize := some "10"
            xExpect := none
            stream := .ok [[104, 101, 108, 108, 111], [119, 111, 114, 108, 100]] }
          false
          { fs := [], lockHolders := [],
            disk := .ok { total := 10000000000, used := 0, free := 10000000000 } }).state =
      .ok [{ name := "todo.txt" }] ∧
    (FileRec.mk "todo.txt" none none none).type? ≠ some "file" := by
  decide

/-- C8 amended: every entry returned by list_files has its type, size, and
human-readable size populated exactly when verbose is true (type then being
"file" or "folder"), and none of them populated when verbose is false; an
absent path fails with 404; and in the upload scenario, listing "notes" with
verbose=true returns exactly one fully populated file entry for todo.txt. -/
theorem c8_list_files_amended :
    (∀ st raw s l, list_files st raw false s = .ok l →
      ∀ r ∈ l, r.type? = none ∧ r.size? = none ∧ r.sizeHuman? = none)
  ∧ (∀ st raw s l, list_files st raw true s = .ok l →
      ∀ r ∈ l, (r.type? = some "file" ∨ r.type? = some "folder") ∧
        r.size? = some ((r.size?).getD 0) ∧
        r.sizeHuman? = some (format_size ((r.size?).getD 0)))
  ∧ (∀ st raw s fp, validateFilePath st (pyPathOfString raw) = .ok fp →
      fsGet s.fs (fullPathOf st (pyPathOfString raw)).parts = none →
      list_files st raw true s =
        .error ⟨404, "File not found: " ++ strOfPyPath (pyPathOfString raw)⟩)
  ∧ list_files defaultSettings "notes" true
        (save_file defaultSettings
          { contentDisposition := some "attachment; filename=notes/todo.txt"
            isArchiveValue := none
            xFileSize := some "10"
            xExpect := none
            stream := .ok [[104, 101, 108, 108, 111], [119, 111, 114, 108, 100]] }
          false
          { fs := [], lockHolders := [],
            disk := .ok { total := 10000000000, used := 0, free := 10000000000 } }).state =
      .ok [{ name := "todo.txt", type? := some "file", size? := some 10,
             sizeHuman? := some "10.0 B" }] := by
  have hinfo : ∀ name e, (getFileInfo name e false).type? = none ∧
      (getFileInfo name e false).size? = none ∧ (getFileInfo name e false).sizeHuman? = none := by
    intro name e
    simp [getFileInfo]
  have hinfoT : ∀ name e, ((getFileInfo name e true).type? = some "file" ∨
        (getFileInfo name e true).type? = some "folder") ∧
      (getFileInfo name e true).size? = some (((getFileInfo name e true).size?).getD 0) ∧
      (getFileInfo name e true).sizeHuman? =
        some (format_size (((getFileInfo name e true).size?).getD 0)) := by
    intro name e
    cases e <;> simp [getFileInfo]
  refine ⟨?_, ?_, ?_, by decide⟩
  · intro st raw s l h r hr
    simp only [list_files] at h
    cases hval : validateFilePath st (pyPathOfString raw) with
    | error e => rw [hval] at h; exact Except.noConfusion h
    | ok fp =>
      rw [hval] at h
      simp only at h
      cases hget : fsGet s.fs (fullPathOf st (pyPathOfString raw)).parts with
      | none => rw [hget] at h; exact Except.noConfusion h
      | some e =>
        rw [hget] at h
        cases e with
        | dir =>
          simp only [Except.ok.injEq] at h
          subst h
          obtain ⟨a, _, rfl⟩ := List.mem_map.mp hr
          exact hinfo _ _
        | file c =>
          simp only [Except.ok.injEq] at h
          subst h
          rcases List.mem_singleton.mp hr with rfl
          exact hinfo _ _
        | other =>
          simp only [Except.ok.injEq] at h
          subst h
          rcases List.mem_singleton.mp hr with rfl
          exact hinfo _ _
  · intro st raw s l h r hr
    simp only [list_files] at h
    cases hval : validateFilePath st (pyPathOfString raw) with
    | error e => rw [hval] at h; exact Except.noConfusion h
    | ok fp =>
      rw [hval] at h
      simp only at h
      cases hget : fsGet s.fs (fullPathOf st (pyPathOfString raw)).parts with
      | none => rw [hget] at h; exact Except.noConfusion h
      | some e =>
        rw [hget] at h
        cases e with
        | dir =>
          simp only [Except.ok.injEq] at h
          subst h
          obtain ⟨a, _, rfl⟩ := List.mem_map.mp hr
          exact hinfoT _ _
        | file c =>
          simp only [Except.ok.injEq] at h
          subst h
          rcases List.mem_singleton.mp hr with rfl
          exact hinfoT _ _
        | other =>
          simp only [Except.ok.injEq] at h
          subst h
          rcases List.mem_singleton.mp hr with rfl
          exact hinfoT _ _
  · intro st raw s fp hval habs
    simp only [list_files, hval, habs]

/-- Witness for C8 amended: the 404 branch at a concrete absent path. -/
theorem c8_list_files_amended_witness :
    list_files defaultSettings "gone" true { fs := [], lockHolders := [], disk := .error () } =
      .error ⟨404, "File not found: " ++ strOfPyPath (pyPathOfString "gone")⟩ :=
  c8_list_files_amended.2.2.1 defaultSettings "gone"
    { fs := [], lockHolders := [], disk := .error () }
    (fullPathOf defaultSettings (pyPathOfString "gone")) (by decide) (by decide)

/-! Claim C6. -/

/-- C6 counterexample: downloading the directory "backup" streams a transient
archive named "backup_12345.tar.gz" (directory name, underscore, path hash),
not ".backup.tar.gz" as claimed; moreover the deferred cleanup task scheduled
for it fails path validation with a 400 error because the temp path is
absolute, leaving the transient archive in place rather than deleting it. -/
theorem c6_counterexample :
    (download_file defaultSettings "backup" 12345 (.ok [9, 9])
        { fs := [(["storage", "backup"], .dir), (["storage", "backup", "a.txt"], .file [1])],
          lockHolders := [], disk := .error () }).result =
      .ok "/tmp/storage/backup_12345.tar.gz" ∧
    pyName (tempArchivePathOf defaultSettings
        (fullPathOf defaultSettings (pyPathOfString "backup")) 12345) = "backup_12345.tar.gz" ∧
    pyName (tempArchivePathOf defaultSettings
        (fullPathOf defaultSettings (pyPathOfString "backup")) 12345) ≠ ".backup.tar.gz" ∧
    (download_file defaultSettings "backup" 12345 (.ok [9, 9])
        { fs := [(["storage", "backup"], .dir), (["storage", "backup", "a.txt"], .file [1])],
          lockHolders := [], disk := .error () }).tasks =
      [BgTask.deleteAt (tempArchivePathOf defaultSettings
        (fullPathOf defaultSettings (pyPathOfString "backup")) 12345)] ∧
    (deleteFileTask defaultSettings
        (tempArchivePathOf defaultSettings
          (fullPathOf defaultSettings (pyPathOfString "backup")) 12345)
        (download_file defaultSettings "backup" 12345 (.ok [9, 9])
          { fs := [(["storage", "backup"], .dir), (["storage", "backup", "a.txt"], .file [1])],
            lockHolders := [], disk := .error () }).state).1 =
      .error (VReason.absolutePath.toExc) ∧
    fsGet (deleteFileTask defaultSettings
        (tempArchivePathOf defaultSettings
          (fullPathOf defaultSettings (pyPathOfString "backup")) 12345)
        (download_file defaultSettings "backup" 12345 (.ok [9, 9])
          { fs := [(["storage", "backup"], .dir), (["storage", "backup", "a.txt"], .file [1])],
            lockHolders := [], disk := .error () }).state).2.fs
        (tempArchivePathOf defaultSettings
          (fullPathOf defaultSettings (pyPathOfString "backup")) 12345).parts =
      some (.file [9, 9]) := by
  decide

/-- C6 amended: a download whose validated path names a directory streams the
transient archive at the temp-area path named dirname, underscore, path hash,
".tar.gz" (the archiver is invoked with entries relative to the directory and
without extended attributes), and a deferred deletion task for that archive is
scheduled; however the scheduled task, receiving an absolute temp path,
always fails validation with a 400 error and leaves the state unchanged, so
the transient archive is not actually removed. A download of an absent path
fails with 404. -/
theorem c6_download_archive_amended :
    (∀ st raw hh bytes s fp, validateFilePath st (pyPathOfString raw) = .ok fp →
      fsGet s.fs (fullPathOf st (pyPathOfString raw)).parts = some .dir →
      download_file st raw hh (.ok bytes) s =
        ⟨.ok (strOfPyPath (tempArchivePathOf st (fullPathOf st (pyPathOfString raw)) hh)),
          { s with fs := fsSet s.fs (tempArchivePathOf st (fullPathOf st (pyPathOfString raw)) hh).parts (.file bytes) },
          [BgTask.deleteAt (tempArchivePathOf st (fullPathOf st (pyPathOfString raw)) hh)]⟩)
  ∧ (∀ st fp hh, st.tempDataPath.absolute = true →
      (tempArchivePathOf st fp hh).absolute = true)
  ∧ (∀ st (ap : PyPath) s, ap.absolute = true →
      ∃ e, deleteFileTask st ap s = (.error e, s) ∧ e.statusCode = 400)
  ∧ (∀ st raw hh tar s fp, validateFilePath st (pyPathOfString raw) = .ok fp →
      fsGet s.fs (fullPathOf st (pyPathOfString raw)).parts = none →
      download_file st raw hh tar s =
        ⟨.error ⟨404, "File not found: " ++ strOfPyPath (pyPathOfString raw)⟩, s, []⟩)
  ∧ splitChar ' ' (zipCommand "/tmp/storage/backup_12345.tar.gz" "/storage/backup") =
      ["tar", "-cz", "-" ++ "-no-xattrs", "-f", "/tmp/storage/backup_12345.tar.gz",
        "-C", "/storage/backup", "."] := by
  refine ⟨?_, ?_, ?_, ?_, by decide⟩
  · intro st raw hh bytes s fp hval hdir
    simp only [download_file, hval, hdir, archiveFile, tempArchivePathOf]
  · intro st fp hh habs
    simp only [tempArchivePathOf, pyJoin]
    split
    · next hb => exact hb
    · exact habs
  · intro st ap s habs
    by_cases hblank : pyStrip (strOfPyPath ap) = ""
    · exact ⟨VReason.emptyPath.toExc, by simp [deleteFileTask, validateFilePath, hblank], rfl⟩
    · exact ⟨VReason.absolutePath.toExc,
        by simp [deleteFileTask, validateFilePath, hblank, habs], rfl⟩
  · intro st raw hh tar s fp hval habs
    simp only [download_file, hval, habs]

/-- Witness for C6 amended: the absolute-path cleanup failure at a concrete
archive path and state. -/
theorem c6_download_archive_amended_witness :
    ∃ e, deleteFileTask defaultSettings (pyPathOfString "/tmp/storage/x_1.tar.gz")
        { fs := [], lockHolders := [], disk := .error () } =
      (.error e, { fs := [], lockHolders := [], disk := .error () }) ∧ e.statusCode = 400 :=
  c6_download_archive_amended.2.2.1 defaultSettings (pyPathOfString "/tmp/storage/x_1.tar.gz")
    { fs := [], lockHolders := [], disk := .error () } (by decide)

/-- Facts available after a successful validation: the returned path is the
resolved one and its final name is nonempty, hence its component list is
nonempty. -/
lemma validate_ok_facts {st : Settings} {p : PyPath} {fp : PyPath}
    (h : validateFilePath st p = .ok fp) :
    fp = fullPathOf st p ∧ (fullPathOf st p).parts ≠ [] := by
  unfold validateFilePath at h
  split_ifs at h with h1 h2 h3 h4 h5 h6 h7
  refine ⟨(Except.ok.inj h).symm, ?_⟩
  intro hnil
  exact h4 (by simp [pyName, hnil])

/-- A nonempty key differs from the key with its last component dropped. -/
lemma ne_dropLast {k : List String} (h : k ≠ []) : k ≠ k.dropLast := by
  intro he
  have h1 := List.length_dropLast k
  have h2 := congrArg List.length he
  have hlen : k.length ≠ 0 := by
    intro h0
    exact h (List.length_eq_zero.mp h0)
  omega

/-- Reduction of the commit phase of save_file over an arbitrary base
filesystem: with the target, parent, staged-file and staging-directory keys
pairwise separated as in a real deployment, the rename check passes, the
staging directory is empty after the rename, and the committed entry is
readable at the target key. -/
lemma save_commit_reduce (B : Fs) (fileKey dirKey tempFileKey tempDirKey : List String)
    (v : Entry) (name : String) (lockH : List String) (dsk : Except Unit DiskUsage)
    (tasks0 : List BgTask) (err1 err2 : Exc)
    (hf_ne_dir : fileKey ≠ dirKey) (hf_ne_tk : fileKey ≠ tempFileKey)
    (hf_ne_td : fileKey ≠ tempDirKey)
    (hsep1 : tempDirKey.isPrefixOf fileKey = false)
    (hsep2 : tempDirKey.isPrefixOf dirKey = false)
    (hcleanB : ∀ e ∈ B, strictlyUnder tempDirKey e.1 = false)
    (hnotdirB : fsGet B fileKey ≠ some Entry.dir) :
    (if fsGet (if (fsGet (fsSet B tempFileKey v) dirKey).isNone = true then
            fsSet (fsSet B tempFileKey v) dirKey Entry.dir else fsSet B tempFileKey v)
          fileKey = some Entry.dir then
      (⟨.error err1,
        { fs := (if (fsGet (fsSet B tempFileKey v) dirKey).isNone = true then
            fsSet (fsSet B tempFileKey v) dirKey Entry.dir else fsSet B tempFileKey v),
          lockHolders := lockH, disk := dsk }, []⟩ : SaveOutcome)
    else if (fsDel (fsSet (if (fsGet (fsSet B tempFileKey v) dirKey).isNone = true then
            fsSet (fsSet B tempFileKey v) dirKey Entry.dir else fsSet B tempFileKey v)
          fileKey v) tempFileKey).any (fun e => strictlyUnder tempDirKey e.1) = true then
      ⟨.error err2,
        { fs := fsDel (fsSet (if (fsGet (fsSet B tempFileKey v) dirKey).isNone = true then
            fsSet (fsSet B tempFileKey v) dirKey Entry.dir else fsSet B tempFileKey v)
          fileKey v) tempFileKey, lockHolders := lockH, disk := dsk }, []⟩
    else
      ⟨.ok name,
        { fs := fsDel (fsDel (fsSet (if (fsGet (fsSet B tempFileKey v) dirKey).isNone = true then
            fsSet (fsSet B tempFileKey v) dirKey Entry.dir else fsSet B tempFileKey v)
          fileKey v) tempFileKey) tempDirKey, lockHolders := lockH, disk := dsk }, tasks0⟩).result =
      .ok name ∧
    fsGet (if fsGet (if (fsGet (fsSet B tempFileKey v) dirKey).isNone = true then
            fsSet (fsSet B tempFileKey v) dirKey Entry.dir else fsSet B tempFileKey v)
          fileKey = some Entry.dir then
      (⟨.error err1,
        { fs := (if (fsGet (fsSet B tempFileKey v) dirKey).isNone = true then
            fsSet (fsSet B tempFileKey v) dirKey Entry.dir else fsSet B tempFileKey v),
          lockHolders := lockH, disk := dsk }, []⟩ : SaveOutcome)
    else if (fsDel (fsSet (if (fsGet (fsSet B tempFileKey v) dirKey).isNone = true then
            fsSet (fsSet B tempFileKey v) dirKey Entry.dir else fsSet B tempFileKey v)
          fileKey v) tempFileKey).any (fun e => strictlyUnder tempDirKey e.1) = true then
      ⟨.error err2,
        { fs := fsDel (fsSet (if (fsGet (fsSet B tempFileKey v) dirKey).isNone = true then
            fsSet (fsSet B tempFileKey v) dirKey Entry.dir else fsSet B tempFileKey v)
          fileKey v) tempFileKey, lockHolders := lockH, disk := dsk }, []⟩
    else
      ⟨.ok name,
        { fs := fsDel (fsDel (fsSet (if (fsGet (fsSet B tempFileKey v) dirKey).isNone = true then
            fsSet (fsSet B tempFileKey v) dirKey Entry.dir else fsSet B tempFileKey v)
          fileKey v) tempFileKey) tempDirKey, lockHolders := lockH, disk := dsk }, tasks0⟩).state.fs
      fileKey = some v ∧
    (if fsGet (if (fsGet (fsSet B tempFileKey v) dirKey).isNone = true then
            fsSet (fsSet B tempFileKey v) dirKey Entry.dir else fsSet B tempFileKey v)
          fileKey = some Entry.dir then
      (⟨.error err1,
        { fs := (if (fsGet (fsSet B tempFileKey v) dirKey).isNone = true then
            fsSet (fsSet B tempFileKey v) dirKey Entry.dir else fsSet B tempFileKey v),
          lockHolders := lockH, disk := dsk }, []⟩ : SaveOutcome)
    else if (fsDel (fsSet (if (fsGet (fsSet B tempFileKey v) dirKey).isNone = true then
            fsSet (fsSet B tempFileKey v) dirKey Entry.dir else fsSet B tempFileKey v)
          fileKey v) tempFileKey).any (fun e => strictlyUnder tempDirKey e.1) = true then
      ⟨.error err2,
        { fs := fsDel (fsSet (if (fsGet (fsSet B tempFileKey v) dirKey).isNone = true then
            fsSet (fsSet B tempFileKey v) dirKey Entry.dir else fsSet B tempFileKey v)
          fileKey v) tempFileKey, lockHolders := lockH, disk := dsk }, []⟩
    else
      ⟨.ok name,
        { fs := fsDel (fsDel (fsSet (if (fsGet (fsSet B tempFileKey v) dirKey).isNone = true then
            fsSet (fsSet B tempFileKey v) dirKey Entry.dir else fsSet B tempFileKey v)
          fileKey v) tempFileKey) tempDirKey, lockHolders := lockH, disk := dsk }, tasks0⟩).tasks =
      tasks0 := by
  have hstrict_self : strictlyUnder tempDirKey tempDirKey = false := by
    simp [strictlyUnder]
  have hstrict_file : strictlyUnder tempDirKey fileKey = false := by
    simp [strictlyUnder, hsep1]
  have hstrict_dir : strictlyUnder tempDirKey dirKey = false := by
    simp [strictlyUnder, hsep2]
  by_cases hc2 : (fsGet (fsSet B tempFileKey v) dirKey).isNone = true
  · simp only [hc2, if_true]
    have hren : fsGet (fsSet (fsSet B tempFileKey v) dirKey Entry.dir) fileKey ≠ some Entry.dir := by
      rw [fsGet_fsSet_ne _ _ hf_ne_dir, fsGet_fsSet_ne _ _ hf_ne_tk]
      exact hnotdirB
    rw [if_neg hren]
    have hany : ((fsDel (fsSet (fsSet (fsSet B tempFileKey v) dirKey Entry.dir) fileKey v)
        tempFileKey).any (fun e => strictlyUnder tempDirKey e.1)) = false := by
      rw [List.any_eq_false]
      intro e he
      obtain ⟨he1, hetk⟩ := mem_fsDel.mp he
      rcases mem_fsSet.mp he1 with rfl | ⟨he2, _⟩
      · simp [hstrict_file]
      rcases mem_fsSet.mp he2 with rfl | ⟨he3, _⟩
      · simp [hstrict_dir]
      rcases mem_fsSet.mp he3 with rfl | ⟨he4, _⟩
      · exact absurd rfl hetk
      · simp [hcleanB e he4]
    rw [if_neg (by rw [hany]; exact Bool.false_ne_true)]
    refine ⟨rfl, ?_, rfl⟩
    rw [fsGet_fsDel_ne _ hf_ne_td, fsGet_fsDel_ne _ hf_ne_tk, fsGet_fsSet_self]
  · rw [Bool.not_eq_true] at hc2
    simp only [hc2, Bool.false_eq_true, if_false]
    have hren : fsGet (fsSet B tempFileKey v) fileKey ≠ some Entry.dir := by
      rw [fsGet_fsSet_ne _ _ hf_ne_tk]
      exact hnotdirB
    rw [if_neg hren]
    have hany : ((fsDel (fsSet (fsSet B tempFileKey v) fileKey v)
        tempFileKey).any (fun e => strictlyUnder tempDirKey e.1)) = false := by
      rw [List.any_eq_false]
      intro e he
      obtain ⟨he1, hetk⟩ := mem_fsDel.mp he
      rcases mem_fsSet.mp he1 with rfl | ⟨he2, _⟩
      · simp [hstrict_file]
      rcases mem_fsSet.mp he2 with rfl | ⟨he3, _⟩
      · exact absurd rfl hetk
      · simp [hcleanB e he3]
    rw [if_neg (by rw [hany]; exact Bool.false_ne_true)]
    refine ⟨rfl, ?_, rfl⟩
    rw [fsGet_fsDel_ne _ hf_ne_td, fsGet_fsDel_ne _ hf_ne_tk, fsGet_fsSet_self]

/-- Mid-stream failure of one upload transaction: when the request reaches the
streaming stage but the body stream raises after some chunks, save_file fails
with the 500 write error, the staged file is removed, every key other than the
staged file and the staging directory is untouched, and no file entry appears
anywhere that was not already present. -/
lemma save_file_failMid (st : Settings) (req : UploadRequest) (force : Bool) (s : SysState)
    (cd szs : String) (n : Int) (written : List (List Nat)) (fp : PyPath)
    (fileKey tempFileKey tempDirKey : List String)
    (hcd : req.contentDisposition = some cd) (hcdne : cd ≠ "")
    (hval : validateFilePath st (parsedSavePath cd) = .ok fp)
    (hiarch : req.isArchiveValue = none)
    (hfk : (fullPathOf st (parsedSavePath cd)).parts = fileKey)
    (htk : (pyResolve (pyJoin st.tempDataPath (parsedSavePath cd))).parts = tempFileKey)
    (htdk : tempFileKey.dropLast = tempDirKey)
    (htkne : tempFileKey ≠ tempDirKey)
    (hconf : force = true ∨ fsGet s.fs fileKey = none)
    (hsz : req.xFileSize = some szs) (hparse : pyInt? szs = some n)
    (hcap : checkStorageSpace n st s.disk = .ok ())
    (hlock : s.lockHolders.contains (strOfPyPath (parsedSavePath cd)) = false)
    (hexp : req.xExpect = none)
    (hstream : req.stream = .failMid written) :
    (save_file st req force s).result = .error ⟨500, "Error writing file to the disk"⟩ ∧
    fsGet (save_file st req force s).state.fs tempFileKey = none ∧
    (∀ k, k ≠ tempDirKey → k ≠ tempFileKey →
      fsGet (save_file st req force s).state.fs k = fsGet s.fs k) ∧
    (∀ k c, fsGet (save_file st req force s).state.fs k = some (.file c) →
      fsGet s.fs k = some (.file c)) ∧
    (save_file st req force s).tasks = [] := by
  have hgate : ((fsGet s.fs (fullPathOf st (parsedSavePath cd)).parts).isSome && !force) = false := by
    rw [hfk]
    rcases hconf with h | h
    · simp [h]
    · simp [h]
  have harch : (decide (pyLower ((none : Option String).getD "false") = "true")) = false := by
    decide
  have harchP : ¬ (pyLower ((none : Option String).getD "false") = "true") := by decide
  have hexp' : ¬ (pyLower ((none : Option String).getD "") = "100-continue") := by decide
  unfold save_file
  rw [hcd]
  simp only [Option.getD_some, if_neg hcdne]
  rw [hval]
  simp only [hiarch, hexp, hsz, hparse, hcap, hstream, harch, if_neg harchP, if_neg hexp',
    getPaths, Bool.false_eq_true, if_false]
  rw [if_neg (by simp [hgate])]
  simp only [pyParent]
  rw [htk, htdk]
  have hlockif : ∀ (c : Prop) [Decidable c] (fsx : Fs),
      (if c then ({ fs := fsx, lockHolders := s.lockHolders, disk := s.disk } : SysState)
       else s).lockHolders = s.lockHolders := by
    intro c _ fsx
    split <;> rfl
  simp only [hlockif, hlock, Bool.false_eq_true, if_false]
  by_cases htd : (fsGet s.fs tempDirKey).isNone = true
  · simp only [htd, if_true]
    refine ⟨by trivial, fsGet_fsDel_self _ _, ?_, ?_, by trivial⟩
    · intro k hktd hktk
      rw [fsGet_fsDel_ne _ hktk, fsGet_fsSet_ne _ _ hktk, fsGet_fsSet_ne _ _ hktd]
    · intro k c hk
      by_cases hktk : k = tempFileKey
      · rw [hktk, fsGet_fsDel_self] at hk
        exact Option.noConfusion hk
      by_cases hktd : k = tempDirKey
      · subst hktd
        have h1 : k ≠ tempFileKey := hktk
        rw [fsGet_fsDel_ne _ h1, fsGet_fsSet_ne _ _ h1, fsGet_fsSet_self] at hk
        simp at hk
      · rw [fsGet_fsDel_ne _ hktk, fsGet_fsSet_ne _ _ hktk, fsGet_fsSet_ne _ _ hktd] at hk
        exact hk
  · rw [Bool.not_eq_true] at htd
    simp only [htd, Bool.false_eq_true, if_false]
    refine ⟨by trivial, fsGet_fsDel_self _ _, ?_, ?_, by trivial⟩
    · intro k hktd hktk
      rw [fsGet_fsDel_ne _ hktk, fsGet_fsSet_ne _ _ hktk]
    · intro k c hk
      by_cases hktk : k = tempFileKey
      · rw [hktk, fsGet_fsDel_self] at hk
        exact Option.noConfusion hk
      · rw [fsGet_fsDel_ne _ hktk, fsGet_fsSet_ne _ _ hktk] at hk
        exact hk

/-- Success of one upload transaction: when the request carries a valid
Content-Disposition path, no conflicting target (or force), a parseable
declared size that passes the capacity check, an unlocked path, no expect
header, a complete stream, and the staging directory is disjoint from the
target keys and initially free of stray entries, save_file returns the staged
file name, commits the streamed bytes at the storage target, and schedules no
task for a plain (non-archive) upload. -/
lemma save_file_success (st : Settings) (req : UploadRequest) (force : Bool) (s : SysState)
    (cd szs : String) (n : Int) (chunks : List (List Nat)) (fp : PyPath)
    (fileKey dirKey tempFileKey tempDirKey : List String)
    (hcd : req.contentDisposition = some cd) (hcdne : cd ≠ "")
    (hval : validateFilePath st (parsedSavePath cd) = .ok fp)
    (hiarch : req.isArchiveValue = none)
    (hfk : (fullPathOf st (parsedSavePath cd)).parts = fileKey)
    (hdk : fileKey.dropLast = dirKey)
    (htk : (pyResolve (pyJoin st.tempDataPath (parsedSavePath cd))).parts = tempFileKey)
    (htdk : tempFileKey.dropLast = tempDirKey)
    (hconf : force = true ∨ fsGet s.fs fileKey = none)
    (hsz : req.xFileSize = some szs) (hparse : pyInt? szs = some n)
    (hcap : checkStorageSpace n st s.disk = .ok ())
    (hlock : s.lockHolders.contains (strOfPyPath (parsedSavePath cd)) = false)
    (hexp : req.xExpect = none)
    (hstream : req.stream = .ok chunks)
    (hsep1 : tempDirKey.isPrefixOf fileKey = false)
    (hsep2 : tempDirKey.isPrefixOf dirKey = false)
    (hclean : ∀ e ∈ s.fs, strictlyUnder tempDirKey e.1 = false)
    (hnotdir : fsGet s.fs fileKey ≠ some .dir) :
    (save_file st req force s).result =
      .ok (pyName (pyResolve (pyJoin st.tempDataPath (parsedSavePath cd)))) ∧
    fsGet (save_file st req force s).state.fs fileKey = some (.file chunks.flatten) ∧
    (save_file st req force s).tasks = [] := by
  obtain ⟨hfp, hfkne'⟩ := validate_ok_facts hval
  have hfkne : fileKey ≠ [] := hfk ▸ hfkne'
  have hf_ne_dir : fileKey ≠ dirKey := hdk ▸ ne_dropLast hfkne
  have htp_self : tempDirKey.isPrefixOf tempFileKey = true := by
    rw [← htdk]
    exact List.isPrefixOf_iff_prefix.mpr (List.dropLast_prefix _)
  have htd_refl : tempDirKey.isPrefixOf tempDirKey = true :=
    List.isPrefixOf_iff_prefix.mpr (List.prefix_refl _)
  have hf_ne_tk : fileKey ≠ tempFileKey := by
    intro he
    rw [he, htp_self] at hsep1
    cases hsep1
  have hf_ne_td : fileKey ≠ tempDirKey := by
    intro he
    rw [he, htd_refl] at hsep1
    cases hsep1
  have hgate : ((fsGet s.fs (fullPathOf st (parsedSavePath cd)).parts).isSome && !force) = false := by
    rw [hfk]
    rcases hconf with h | h
    · simp [h]
    · simp [h]
  have harch : (decide (pyLower ((none : Option String).getD "false") = "true")) = false := by
    decide
  have harchP : ¬ (pyLower ((none : Option String).getD "false") = "true") := by decide
  have hexp' : ¬ (pyLower ((none : Option String).getD "") = "100-continue") := by decide
  unfold save_file
  rw [hcd]
  simp only [Option.getD_some, if_neg hcdne]
  rw [hval]
  simp only [hiarch, hexp, hsz, hparse, hcap, hstream, harch, if_neg harchP, if_neg hexp',
    getPaths, Bool.false_eq_true, if_false]
  rw [if_neg (by simp [hgate])]
  have hfk2 : (pyResolve (pyJoin st.storageDataPath (parsedSavePath cd))).parts = fileKey := hfk
  simp only [pyParent]
  rw [htk, htdk, hfk2, hdk]
  have hlockif : ∀ (c : Prop) [Decidable c] (fsx : Fs),
      (if c then ({ fs := fsx, lockHolders := s.lockHolders, disk := s.disk } : SysState)
       else s).lockHolders = s.lockHolders := by
    intro c _ fsx
    split <;> rfl
  simp only [hlockif, hlock, Bool.false_eq_true, if_false]
  by_cases htd : (fsGet s.fs tempDirKey).isNone = true
  · simp only [htd, if_true]
    have hcleanB : ∀ e ∈ fsSet s.fs tempDirKey Entry.dir, strictlyUnder tempDirKey e.1 = false := by
      intro e he
      rcases mem_fsSet.mp he with rfl | ⟨hmem, _⟩
      · simp [strictlyUnder]
      · exact hclean e hmem
    have hnotdirB : fsGet (fsSet s.fs tempDirKey Entry.dir) fileKey ≠ some Entry.dir := by
      rw [fsGet_fsSet_ne _ _ hf_ne_td]
      exact hnotdir
    exact save_commit_reduce (fsSet s.fs tempDirKey Entry.dir) fileKey dirKey tempFileKey
      tempDirKey (Entry.file chunks.flatten)
      (pyName (pyResolve (pyJoin st.tempDataPath (parsedSavePath cd)))) s.lockHolders s.disk []
      ⟨500, "Error moving and cleaning temp file"⟩ ⟨500, "Error moving and cleaning temp file"⟩
      hf_ne_dir hf_ne_tk hf_ne_td hsep1 hsep2 hcleanB hnotdirB
  · rw [Bool.not_eq_true] at htd
    simp only [htd, Bool.false_eq_true, if_false]
    exact save_commit_reduce s.fs fileKey dirKey tempFileKey
      tempDirKey (Entry.file chunks.flatten)
      (pyName (pyResolve (pyJoin st.tempDataPath (parsedSavePath cd)))) s.lockHolders s.disk []
      ⟨500, "Error moving and cleaning temp file"⟩ ⟨500, "Error moving and cleaning temp file"⟩
      hf_ne_dir hf_ne_tk hf_ne_td hsep1 hsep2 hclean hnotdir

/-! Claim C2. -/

/-- C2: an I/O failure mid-stream while staging the request body makes
save_file fail with the 500 write error, removes the partial staged file, and
leaves no partial artifact: every key other than the staging directory and the
staged file is untouched, no file entry exists that was not already present
(in particular the permanent tree gains nothing), and no deferred task is
scheduled. -/
theorem c2_midstream_failure_cleanup (st : Settings) (req : UploadRequest) (force : Bool)
    (s : SysState) (cd szs : String) (n : Int) (written : List (List Nat)) (fp : PyPath)
    (fileKey tempFileKey tempDirKey : List String)
    (hcd : req.contentDisposition = some cd) (hcdne : cd ≠ "")
    (hval : validateFilePath st (parsedSavePath cd) = .ok fp)
    (hiarch : req.isArchiveValue = none)
    (hfk : (fullPathOf st (parsedSavePath cd)).parts = fileKey)
    (htk : (pyResolve (pyJoin st.tempDataPath (parsedSavePath cd))).parts = tempFileKey)
    (htdk : tempFileKey.dropLast = tempDirKey)
    (htkne : tempFileKey ≠ tempDirKey)
    (hconf : force = true ∨ fsGet s.fs fileKey = none)
    (hsz : req.xFileSize = some szs) (hparse : pyInt? szs = some n)
    (hcap : checkStorageSpace n st s.disk = .ok ())
    (hlock : s.lockHolders.contains (strOfPyPath (parsedSavePath cd)) = false)
    (hexp : req.xExpect = none)
    (hstream : req.stream = .failMid written) :
    (save_file st req force s).result = .error ⟨500, "Error writing file to the disk"⟩ ∧
    fsGet (save_file st req force s).state.fs tempFileKey = none ∧
    (∀ k, k ≠ tempDirKey → k ≠ tempFileKey →
      fsGet (save_file st req force s).state.fs k = fsGet s.fs k) ∧
    (∀ k c, fsGet (save_file st req force s).state.fs k = some (.file c) →
      fsGet s.fs k = some (.file c)) ∧
    (save_file st req force s).tasks = [] :=
  save_file_failMid st req force s cd szs n written fp fileKey tempFileKey tempDirKey
    hcd hcdne hval hiarch hfk htk htdk htkne hconf hsz hparse hcap hlock hexp hstream

/-- Witness for C2 at a concrete interrupted upload. -/
theorem c2_midstream_failure_cleanup_witness :
    (save_file defaultSettings
      { contentDisposition := some "attachment; filename=notes/todo.txt"
        isArchiveValue := none
        xFileSize := some "10"
        xExpect := none
        stream := .failMid [[1, 2]] }
      false
      { fs := [], lockHolders := [],
        disk := .ok { total := 10000000000, used := 0, free := 10000000000 } }).result =
      .error ⟨500, "Error writing file to the disk"⟩ ∧
    fsGet (save_file defaultSettings
      { contentDisposition := some "attachment; filename=notes/todo.txt"
        isArchiveValue := none
        xFileSize := some "10"
        xExpect := none
        stream := .failMid [[1, 2]] }
      false
      { fs := [], lockHolders := [],
        disk := .ok { total := 10000000000, used := 0, free := 10000000000 } }).state.fs
      ["tmp", "storage", "notes", "todo.txt"] = none := by
  have h := c2_midstream_failure_cleanup defaultSettings
    { contentDisposition := some "attachment; filename=notes/todo.txt"
      isArchiveValue := none
      xFileSize := some "10"
      xExpect := none
      stream := .failMid [[1, 2]] }
    false
    { fs := [], lockHolders := [],
      disk := .ok { total := 10000000000, used := 0, free := 10000000000 } }
    "attachment; filename=notes/todo.txt" "10" 10 [[1, 2]]
    (fullPathOf defaultSettings (parsedSavePath "attachment; filename=notes/todo.txt"))
    ["storage", "notes", "todo.txt"] ["tmp", "storage", "notes", "todo.txt"]
    ["tmp", "storage", "notes"]
    rfl (by decide) (by decide) rfl (by decide) (by decide) (by decide) (by decide)
    (Or.inr (by decide)) rfl (by decide) (by decide) (by decide) rfl rfl
  exact ⟨h.1, h.2.1⟩

/-- Reduction of the commit phase of save_file when the rename target is an
existing directory: os.rename fails, so the transaction ends with the move
error and the directory entry is still at the target key. -/
lemma save_rename_dir_reduce (B : Fs) (fileKey dirKey tempFileKey tempDirKey : List String)
    (v : Entry) (name : String) (lockH : List String) (dsk : Except Unit DiskUsage)
    (tasks0 : List BgTask) (err1 err2 : Exc)
    (hf_ne_dir : fileKey ≠ dirKey) (hf_ne_tk : fileKey ≠ tempFileKey)
    (hBdir : fsGet B fileKey = some Entry.dir) :
    (if fsGet (if (fsGet (fsSet B tempFileKey v) dirKey).isNone = true then
            fsSet (fsSet B tempFileKey v) dirKey Entry.dir else fsSet B tempFileKey v)
          fileKey = some Entry.dir then
      (⟨.error err1,
        { fs := (if (fsGet (fsSet B tempFileKey v) dirKey).isNone = true then
            fsSet (fsSet B tempFileKey v) dirKey Entry.dir else fsSet B tempFileKey v),
          lockHolders := lockH, disk := dsk }, []⟩ : SaveOutcome)
    else if (fsDel (fsSet (if (fsGet (fsSet B tempFileKey v) dirKey).isNone = true then
            fsSet (fsSet B tempFileKey v) dirKey Entry.dir else fsSet B tempFileKey v)
          fileKey v) tempFileKey).any (fun e => strictlyUnder tempDirKey e.1) = true then
      ⟨.error err2,
        { fs := fsDel (fsSet (if (fsGet (fsSet B tempFileKey v) dirKey).isNone = true then
            fsSet (fsSet B tempFileKey v) dirKey Entry.dir else fsSet B tempFileKey v)
          fileKey v) tempFileKey, lockHolders := lockH, disk := dsk }, []⟩
    else
      ⟨.ok name,
        { fs := fsDel (fsDel (fsSet (if (fsGet (fsSet B tempFileKey v) dirKey).isNone = true then
            fsSet (fsSet B tempFileKey v) dirKey Entry.dir else fsSet B tempFileKey v)
          fileKey v) tempFileKey) tempDirKey, lockHolders := lockH, disk := dsk }, tasks0⟩).result =
      .error err1 ∧
    fsGet (if fsGet (if (fsGet (fsSet B tempFileKey v) dirKey).isNone = true then
            fsSet (fsSet B tempFileKey v) dirKey Entry.dir else fsSet B tempFileKey v)
          fileKey = some Entry.dir then
      (⟨.error err1,
        { fs := (if (fsGet (fsSet B tempFileKey v) dirKey).isNone = true then
            fsSet (fsSet B tempFileKey v) dirKey Entry.dir else fsSet B tempFileKey v),
          lockHolders := lockH, disk := dsk }, []⟩ : SaveOutcome)
    else if (fsDel (fsSet (if (fsGet (fsSet B tempFileKey v) dirKey).isNone = true then
            fsSet (fsSet B tempFileKey v) dirKey Entry.dir else fsSet B tempFileKey v)
          fileKey v) tempFileKey).any (fun e => strictlyUnder tempDirKey e.1) = true then
      ⟨.error err2,
        { fs := fsDel (fsSet (if (fsGet (fsSet B tempFileKey v) dirKey).isNone = true then
            fsSet (fsSet B tempFileKey v) dirKey Entry.dir else fsSet B tempFileKey v)
          fileKey v) tempFileKey, lockHolders := lockH, disk := dsk }, []⟩
    else
      ⟨.ok name,
        { fs := fsDel (fsDel (fsSet (if (fsGet (fsSet B tempFileKey v) dirKey).isNone = true then
            fsSet (fsSet B tempFileKey v) dirKey Entry.dir else fsSet B tempFileKey v)
          fileKey v) tempFileKey) tempDirKey, lockHolders := lockH, disk := dsk }, tasks0⟩).state.fs
      fileKey = some Entry.dir := by
  by_cases hc2 : (fsGet (fsSet B tempFileKey v) dirKey).isNone = true
  · simp only [hc2, if_true]
    have hdirhit : fsGet (fsSet (fsSet B tempFileKey v) dirKey Entry.dir) fileKey =
        some Entry.dir := by
      rw [fsGet_fsSet_ne _ _ hf_ne_dir, fsGet_fsSet_ne _ _ hf_ne_tk]
      exact hBdir
    rw [if_pos hdirhit]
    exact ⟨rfl, hdirhit⟩
  · rw [Bool.not_eq_true] at hc2
    simp only [hc2, Bool.false_eq_true, if_false]
    have hdirhit : fsGet (fsSet B tempFileKey v) fileKey = some Entry.dir := by
      rw [fsGet_fsSet_ne _ _ hf_ne_tk]
      exact hBdir
    rw [if_pos hdirhit]
    exact ⟨rfl, hdirhit⟩

/-- Forced upload whose target is an existing directory: the transaction
reaches the commit phase, the rename onto the directory fails, save_file
returns the 500 move error, and the directory entry is still at the target
key afterwards (nothing is overwritten). -/
lemma save_file_force_onto_dir (st : Settings) (req : UploadRequest) (s : SysState)
    (cd szs : String) (n : Int) (chunks : List (List Nat)) (fp : PyPath)
    (fileKey dirKey tempFileKey tempDirKey : List String)
    (hcd : req.contentDisposition = some cd) (hcdne : cd ≠ "")
    (hval : validateFilePath st (parsedSavePath cd) = .ok fp)
    (hiarch : req.isArchiveValue = none)
    (hfk : (fullPathOf st (parsedSavePath cd)).parts = fileKey)
    (hdk : fileKey.dropLast = dirKey)
    (htk : (pyResolve (pyJoin st.tempDataPath (parsedSavePath cd))).parts = tempFileKey)
    (htdk : tempFileKey.dropLast = tempDirKey)
    (htarget : fsGet s.fs fileKey = some Entry.dir)
    (hsz : req.xFileSize = some szs) (hparse : pyInt? szs = some n)
    (hcap : checkStorageSpace n st s.disk = .ok ())
    (hlock : s.lockHolders.contains (strOfPyPath (parsedSavePath cd)) = false)
    (hexp : req.xExpect = none)
    (hstream : req.stream = .ok chunks)
    (hsep1 : tempDirKey.isPrefixOf fileKey = false) :
    (save_file st req true s).result = .error ⟨500, "Error moving and cleaning temp file"⟩ ∧
    fsGet (save_file st req true s).state.fs fileKey = some Entry.dir := by
  obtain ⟨hfp, hfkne'⟩ := validate_ok_facts hval
  have hfkne : fileKey ≠ [] := hfk ▸ hfkne'
  have hf_ne_dir : fileKey ≠ dirKey := hdk ▸ ne_dropLast hfkne
  have htp_self : tempDirKey.isPrefixOf tempFileKey = true := by
    rw [← htdk]
    exact List.isPrefixOf_iff_prefix.mpr (List.dropLast_prefix _)
  have htd_refl : tempDirKey.isPrefixOf tempDirKey = true :=
    List.isPrefixOf_iff_prefix.mpr (List.prefix_refl _)
  have hf_ne_tk : fileKey ≠ tempFileKey := by
    intro he
    rw [he, htp_self] at hsep1
    cases hsep1
  have hf_ne_td : fileKey ≠ tempDirKey := by
    intro he
    rw [he, htd_refl] at hsep1
    cases hsep1
  have hgate : ((fsGet s.fs (fullPathOf st (parsedSavePath cd)).parts).isSome && !true) = false := by
    simp
  have harch : (decide (pyLower ((none : Option String).getD "false") = "true")) = false := by
    decide
  have harchP : ¬ (pyLower ((none : Option String).getD "false") = "true") := by decide
  have hexp' : ¬ (pyLower ((none : Option String).getD "") = "100-continue") := by decide
  unfold save_file
  rw [hcd]
  simp only [Option.getD_some, if_neg hcdne]
  rw [hval]
  simp only [hiarch, hexp, hsz, hparse, hcap, hstream, harch, if_neg harchP, if_neg hexp',
    getPaths, Bool.false_eq_true, if_false]
  rw [if_neg (by simp [hgate])]
  have hfk2 : (pyResolve (pyJoin st.storageDataPath (parsedSavePath cd))).parts = fileKey := hfk
  simp only [pyParent]
  rw [htk, htdk, hfk2, hdk]
  have hlockif : ∀ (c : Prop) [Decidable c] (fsx : Fs),
      (if c then ({ fs := fsx, lockHolders := s.lockHolders, disk := s.disk } : SysState)
       else s).lockHolders = s.lockHolders := by
    intro c _ fsx
    split <;> rfl
  simp only [hlockif, hlock, Bool.false_eq_true, if_false]
  by_cases htd : (fsGet s.fs tempDirKey).isNone = true
  · simp only [htd, if_true]
    have hBdir : fsGet (fsSet s.fs tempDirKey Entry.dir) fileKey = some Entry.dir := by
      rw [fsGet_fsSet_ne _ _ hf_ne_td]
      exact htarget
    exact save_rename_dir_reduce (fsSet s.fs tempDirKey Entry.dir) fileKey dirKey tempFileKey
      tempDirKey (Entry.file chunks.flatten)
      (pyName (pyResolve (pyJoin st.tempDataPath (parsedSavePath cd)))) s.lockHolders s.disk []
      ⟨500, "Error moving and cleaning temp file"⟩ ⟨500, "Error moving and cleaning temp file"⟩
      hf_ne_dir hf_ne_tk hBdir
  · rw [Bool.not_eq_true] at htd
    simp only [htd, Bool.false_eq_true, if_false]
    exact save_rename_dir_reduce s.fs fileKey dirKey tempFileKey
      tempDirKey (Entry.file chunks.flatten)
      (pyName (pyResolve (pyJoin st.tempDataPath (parsedSavePath cd)))) s.lockHolders s.disk []
      ⟨500, "Error moving and cleaning temp file"⟩ ⟨500, "Error moving and cleaning temp file"⟩
      hf_ne_dir hf_ne_tk htarget

/-! Claim C5. -/

/-- C5 counterexample: the claim that with force=true the existing target is
overwritten and the upload succeeds is false when the existing target is a
directory: a forced upload to "backup", where the storage tree holds the
directory backup with a file inside it, ends with the 500 move error (the
rename onto the directory fails), and the directory and its content are still
in place, nothing overwritten. -/
theorem c5_counterexample :
    (save_file defaultSettings
      { contentDisposition := some "attachment; filename=backup"
        isArchiveValue := none
        xFileSize := some "10"
        xExpect := none
        stream := .ok [[1, 2, 3]] }
      true
      { fs := [(["storage", "backup"], .dir), (["storage", "backup", "a.txt"], .file [7])],
        lockHolders := [],
        disk := .ok { total := 10000000000, used := 0, free := 10000000000 } }).result =
      .error ⟨500, "Error moving and cleaning temp file"⟩ ∧
    fsGet (save_file defaultSettings
      { contentDisposition := some "attachment; filename=backup"
        isArchiveValue := none
        xFileSize := some "10"
        xExpect := none
        stream := .ok [[1, 2, 3]] }
      true
      { fs := [(["storage", "backup"], .dir), (["storage", "backup", "a.txt"], .file [7])],
        lockHolders := [],
        disk := .ok { total := 10000000000, used := 0, free := 10000000000 } }).state.fs
      ["storage", "backup"] = some .dir ∧
    fsGet (save_file defaultSettings
      { contentDisposition := some "attachment; filename=backup"
        isArchiveValue := none
        xFileSize := some "10"
        xExpect := none
        stream := .ok [[1, 2, 3]] }
      true
      { fs := [(["storage", "backup"], .dir), (["storage", "backup", "a.txt"], .file [7])],
        lockHolders := [],
        disk := .ok { total := 10000000000, used := 0, free := 10000000000 } }).state.fs
      ["storage", "backup", "a.txt"] = some (.file [7]) := by
  decide

/-- C5 amended: uploading to an already existing target without force fails
with 409 Conflict, before any mutation: the state is returned untouched and no
task is scheduled; with force=true and an existing non-directory target the
upload proceeds and overwrites: it succeeds and the streamed content is
committed at the target key; but with force=true and an existing directory
target the rename onto the directory fails, the upload ends with the 500 move
error, and the directory entry is still at the target key, nothing
overwritten. -/
theorem c5_conflict_and_force (st : Settings) (req : UploadRequest) (s : SysState)
    (cd szs : String) (n : Int) (chunks : List (List Nat)) (fp : PyPath)
    (fileKey dirKey tempFileKey tempDirKey : List String) :
    ((∀ force, req.contentDisposition = some cd → cd ≠ "" →
      validateFilePath st (parsedSavePath cd) = .ok fp →
      (fsGet s.fs (fullPathOf st (parsedSavePath cd)).parts).isSome = true → force = false →
      save_file st req force s =
        ⟨.error ⟨409, "File already exists. If you want to overwrite it, use the force parameter."⟩,
          s, []⟩)
  ∧ (req.contentDisposition = some cd → cd ≠ "" →
      validateFilePath st (parsedSavePath cd) = .ok fp →
      req.isArchiveValue = none →
      (fullPathOf st (parsedSavePath cd)).parts = fileKey →
      fileKey.dropLast = dirKey →
      (pyResolve (pyJoin st.tempDataPath (parsedSavePath cd))).parts = tempFileKey →
      tempFileKey.dropLast = tempDirKey →
      req.xFileSize = some szs → pyInt? szs = some n →
      checkStorageSpace n st s.disk = .ok () →
      s.lockHolders.contains (strOfPyPath (parsedSavePath cd)) = false →
      req.xExpect = none →
      req.stream = .ok chunks →
      tempDirKey.isPrefixOf fileKey = false →
      tempDirKey.isPrefixOf dirKey = false →
      (∀ e ∈ s.fs, strictlyUnder tempDirKey e.1 = false) →
      fsGet s.fs fileKey ≠ some .dir →
      (save_file st req true s).result =
        .ok (pyName (pyResolve (pyJoin st.tempDataPath (parsedSavePath cd)))) ∧
      fsGet (save_file st req true s).state.fs fileKey = some (.file chunks.flatten))
  ∧ (req.contentDisposition = some cd → cd ≠ "" →
      validateFilePath st (parsedSavePath cd) = .ok fp →
      req.isArchiveValue = none →
      (fullPathOf st (parsedSavePath cd)).parts = fileKey →
      fileKey.dropLast = dirKey →
      (pyResolve (pyJoin st.tempDataPath (parsedSavePath cd))).parts = tempFileKey →
      tempFileKey.dropLast = tempDirKey →
      fsGet s.fs fileKey = some Entry.dir →
      req.xFileSize = some szs → pyInt? szs = some n →
      checkStorageSpace n st s.disk = .ok () →
      s.lockHolders.contains (strOfPyPath (parsedSavePath cd)) = false →
      req.xExpect = none →
      req.stream = .ok chunks →
      tempDirKey.isPrefixOf fileKey = false →
      (save_file st req true s).result =
        .error ⟨500, "Error moving and cleaning temp file"⟩ ∧
      fsGet (save_file st req true s).state.fs fileKey = some Entry.dir)) := by
  refine ⟨?_, ?_, ?_⟩
  · intro force hcd hcdne hval hex hforce
    unfold save_file
    rw [hcd]
    simp only [Option.getD_some, if_neg hcdne]
    rw [hval]
    simp only [getPaths]
    rw [if_pos (by rw [hex, hforce]; rfl)]
  · intro hcd hcdne hval hiarch hfk hdk htk htdk hsz hparse hcap hlock hexp hstream
      hsep1 hsep2 hclean hnotdir
    have h := save_file_success st req true s cd szs n chunks fp fileKey dirKey tempFileKey
      tempDirKey hcd hcdne hval hiarch hfk hdk htk htdk (Or.inl rfl) hsz hparse hcap hlock
      hexp hstream hsep1 hsep2 hclean hnotdir
    exact ⟨h.1, h.2.1⟩
  · intro hcd hcdne hval hiarch hfk hdk htk htdk htarget hsz hparse hcap hlock hexp
      hstream hsep1
    exact save_file_force_onto_dir st req s cd szs n chunks fp fileKey dirKey tempFileKey
      tempDirKey hcd hcdne hval hiarch hfk hdk htk htdk htarget hsz hparse hcap hlock hexp
      hstream hsep1

/-- Witness for C5: the conflict branch at a concrete existing target. -/
theorem c5_conflict_and_force_witness :
    save_file defaultSettings
      { contentDisposition := some "attachment; filename=notes/todo.txt"
        isArchiveValue := none
        xFileSize := some "10"
        xExpect := none
        stream := .ok [[1]] }
      false
      { fs := [(["storage", "notes", "todo.txt"], .file [0])], lockHolders := [],
        disk := .ok { total := 10000000000, used := 0, free := 10000000000 } } =
      ⟨.error ⟨409, "File already exists. If you want to overwrite it, use the force parameter."⟩,
        { fs := [(["storage", "notes", "todo.txt"], .file [0])], lockHolders := [],
          disk := .ok { total := 10000000000, used := 0, free := 10000000000 } }, []⟩ :=
  (c5_conflict_and_force defaultSettings
    { contentDisposition := some "attachment; filename=notes/todo.txt"
      isArchiveValue := none
      xFileSize := some "10"
      xExpect := none
      stream := .ok [[1]] }
    { fs := [(["storage", "notes", "todo.txt"], .file [0])], lockHolders := [],
      disk := .ok { total := 10000000000, used := 0, free := 10000000000 } }
    "attachment; filename=notes/todo.txt" "10" 10 [[1]]
    (fullPathOf defaultSettings (parsedSavePath "attachment; filename=notes/todo.txt"))
    [] [] [] []).1 false rfl (by decide) (by decide) (by decide) rfl

/-! Claim C3. -/

/-- One lock transition keeps the holder set at size at most one. -/
lemma lockStep_length_le {h : List Nat} (hh : h.length ≤ 1) (e : LockEvent) :
    (lockStep h e).length ≤ 1 := by
  cases e with
  | tryAcquire tx =>
    simp only [lockStep]
    split
    · simp
    · exact hh
  | release tx =>
    simp only [lockStep]
    exact le_trans (List.Sublist.length_le (List.erase_sublist tx h)) hh

/-- Foldl preservation of the at-most-one-holder invariant. -/
lemma lockRun_aux : ∀ (evs : List LockEvent) (h : List Nat), h.length ≤ 1 →
    (evs.foldl lockStep h).length ≤ 1
  | [], _, hh => hh
  | e :: evs, h, hh => lockRun_aux evs (lockStep h e) (lockStep_length_le hh e)

/-- C3: a second upload to a path whose lock is currently held fails fast with
423 Locked and schedules nothing; once the lock is released (upload completed,
successfully or not), an upload to the same path with the same preconditions
succeeds; an acquire attempt while the lock is held leaves the holder set
unchanged (fail-fast, no queueing); and along any event sequence the per-path
lock has at most one holder, so at most one transaction per path is past the
lock-acquisition point at a time. -/
theorem c3_locking (st : Settings) (req : UploadRequest) (force : Bool) (s : SysState)
    (cd szs : String) (n : Int) (chunks : List (List Nat)) (fp : PyPath)
    (fileKey dirKey tempFileKey tempDirKey : List String) :
    ((req.contentDisposition = some cd → cd ≠ "" →
      validateFilePath st (parsedSavePath cd) = .ok fp →
      (force = true ∨ fsGet s.fs (fullPathOf st (parsedSavePath cd)).parts = none) →
      req.xFileSize = some szs → pyInt? szs = some n →
      checkStorageSpace n st s.disk = .ok () →
      s.lockHolders.contains (strOfPyPath (parsedSavePath cd)) = true →
      (save_file st req force s).result =
        .error ⟨423, "File is currently being uploaded by another user. Please try again later."⟩ ∧
      (save_file st req force s).tasks = [])
  ∧ (req.contentDisposition = some cd → cd ≠ "" →
      validateFilePath st (parsedSavePath cd) = .ok fp →
      req.isArchiveValue = none →
      (fullPathOf st (parsedSavePath cd)).parts = fileKey →
      fileKey.dropLast = dirKey →
      (pyResolve (pyJoin st.tempDataPath (parsedSavePath cd))).parts = tempFileKey →
      tempFileKey.dropLast = tempDirKey →
      (force = true ∨ fsGet s.fs fileKey = none) →
      req.xFileSize = some szs → pyInt? szs = some n →
      checkStorageSpace n st s.disk = .ok () →
      s.lockHolders.contains (strOfPyPath (parsedSavePath cd)) = false →
      req.xExpect = none →
      req.stream = .ok chunks →
      tempDirKey.isPrefixOf fileKey = false →
      tempDirKey.isPrefixOf dirKey = false →
      (∀ e ∈ s.fs, strictlyUnder tempDirKey e.1 = false) →
      fsGet s.fs fileKey ≠ some .dir →
      (save_file st req force s).result =
        .ok (pyName (pyResolve (pyJoin st.tempDataPath (parsedSavePath cd)))))
  ∧ (∀ (holders : List Nat) (tx : Nat), holders ≠ [] →
      lockStep holders (.tryAcquire tx) = holders)
  ∧ (∀ evs : List LockEvent, (lockRun evs).length ≤ 1)) := by
  refine ⟨?_, ?_, ?_, ?_⟩
  · intro hcd hcdne hval hconf hsz hparse hcap hlockT
    have hgate : ((fsGet s.fs (fullPathOf st (parsedSavePath cd)).parts).isSome && !force) = false := by
      rcases hconf with h | h
      · simp [h]
      · simp [h]
    unfold save_file
    rw [hcd]
    simp only [Option.getD_some, if_neg hcdne]
    rw [hval]
    simp only [getPaths]
    rw [if_neg (by simp [hgate])]
    simp only [hsz, hparse, hcap]
    have hlockif : ∀ (c : Prop) [Decidable c] (fsx : Fs),
        (if c then ({ fs := fsx, lockHolders := s.lockHolders, disk := s.disk } : SysState)
         else s).lockHolders = s.lockHolders := by
      intro c _ fsx
      split <;> rfl
    simp only [hlockif, hlockT, if_true]
    exact ⟨by trivial, by trivial⟩
  · intro hcd hcdne hval hiarch hfk hdk htk htdk hconf hsz hparse hcap hlock hexp hstream
      hsep1 hsep2 hclean hnotdir
    exact (save_file_success st req force s cd szs n chunks fp fileKey dirKey tempFileKey
      tempDirKey hcd hcdne hval hiarch hfk hdk htk htdk hconf hsz hparse hcap hlock hexp
      hstream hsep1 hsep2 hclean hnotdir).1
  · intro holders tx hne
    simp only [lockStep]
    rw [if_neg (by simp [List.isEmpty_iff, hne])]
  · intro evs
    exact lockRun_aux evs [] (by simp)

/-- Witness for C3: the fail-fast 423 at a concrete locked path. -/
theorem c3_locking_witness :
    (save_file defaultSettings
      { contentDisposition := some "attachment; filename=notes/todo.txt"
        isArchiveValue := none
        xFileSize := some "10"
        xExpect := none
        stream := .ok [[1]] }
      false
      { fs := [], lockHolders := ["notes/todo.txt"],
        disk := .ok { total := 10000000000, used := 0, free := 10000000000 } }).result =
      .error ⟨423, "File is currently being uploaded by another user. Please try again later."⟩ :=
  ((c3_locking defaultSettings
    { contentDisposition := some "attachment; filename=notes/todo.txt"
      isArchiveValue := none
      xFileSize := some "10"
      xExpect := none
      stream := .ok [[1]] }
    false
    { fs := [], lockHolders := ["notes/todo.txt"],
      disk := .ok { total := 10000000000, used := 0, free := 10000000000 } }
    "attachment; filename=notes/todo.txt" "10" 10 [[1]]
    (fullPathOf defaultSettings (parsedSavePath "attachment; filename=notes/todo.txt"))
    [] [] [] []).1 rfl (by decide) (by decide) (Or.inr (by decide)) rfl (by decide)
    (by decide) (by decide)).1

end YopCloud
